/-
Verification development for the SKIN-TWIN formulation proof assistant.

This file gives a shallow embedding, in Lean 4, of the proof-assistant core of
the repository: the verification engine (`verification-engine.ts`), the
cognitive accounting system (`cognitive-accounting.ts`), the relevance
realization system (`relevance-realization.ts`), the tensor operations engine
(`tensor-operations.ts`) and the hypergraph integration engine
(`hypergraph-integration.ts`).  JavaScript numbers are modelled as exact
rationals (`ℚ`) for the purely rational computations and as real numbers (`ℝ`)
for the tensor module, whose penetration formula uses `exp`/`log`.  JavaScript
`Map`s are modelled as association lists in insertion order, and JavaScript
strings as Lean strings (`includes` is substring search, case folding is
`Char.toLower`).  `Date.now()` is modelled as an explicit `now : Nat`
parameter threaded through every function that reads the clock; calls of one
pipeline run share a single clock value.  `Math.exp` inside the cognitive
memory update is abstracted as an explicit function parameter `expFn`, since
the claims about the cognitive state do not depend on its value.
-/
import Mathlib

set_option maxRecDepth 8000

namespace SkinTwin

/-! ### Kernel-reducible rational arithmetic

Mathlib's `Rat.add`/`Rat.mul`/`Rat.div` do not reduce under `decide`, so the
embedding uses wrappers built from `mkRat`, which does reduce.  The lemmas
`qadd_eq` … `qdiv_eq` identify them with the standard field operations, so
that symbolic proofs can work with ordinary `+ * /`. -/

def qadd (a b : ℚ) : ℚ := mkRat (a.num * b.den + b.num * a.den) (a.den * b.den)

def qmul (a b : ℚ) : ℚ := mkRat (a.num * b.num) (a.den * b.den)

def qneg (a : ℚ) : ℚ := mkRat (-a.num) a.den

def qsub (a b : ℚ) : ℚ := qadd a (qneg b)

def qinv (b : ℚ) : ℚ :=
if b.num < 0 then mkRat (-(b.den : Int)) b.num.natAbs else mkRat (b.den : Int) b.num.natAbs

def qdiv (a b : ℚ) : ℚ := qmul a (qinv b)

/-! ### JavaScript string operations -/

/-- Lower-cased character list of a string, modelling `String.toLowerCase`. -/
def lcChars (s : String) : List Char := s.data.map Char.toLower

/-- Boolean test that `n` is an initial segment of `h`. -/
def prefB : List Char → List Char → Bool
| [], _ => true
| _ :: _, [] => false
| a :: as, b :: bs => a == b && prefB as bs

/-- Boolean substring test on character lists. -/
def subB (n : List Char) : List Char → Bool
| [] => prefB n []
| b :: bs => prefB n (b :: bs) || subB n bs

/-- JavaScript `hay.includes(needle)`: exact substring containment. -/
def strIncludes (hay needle : String) : Bool := subB needle.data hay.data

/-- Case-insensitive substring containment, modelling
`hay.toLowerCase().includes(needle.toLowerCase())` and case-insensitive
regular-expression literal tests. -/
def strIncludesCI (hay needle : String) : Bool := subB (lcChars needle) (lcChars hay)

/-- JavaScript `s.slice(0, n)` for ASCII content. -/
def strTake (s : String) (n : Nat) : String := String.mk (s.data.take n)

/-- JavaScript string length for ASCII content. -/
def strLen (s : String) : Nat := s.data.length

/-- Numeric value of a list of decimal digit characters (`parseInt`). -/
def digitsToNat (ds : List Char) : Nat :=
ds.foldl (fun n c => n * 10 + (c.toNat - 48)) 0

/-- Splitting words at whitespace, modelling `text.split(/\s+/)`. -/
def splitWords (s : String) : List String := s.splitOn " "

/-! ### JavaScript `Map` model: association lists in insertion order -/

/-- `map.get(k) ?? d`: value of the first entry with key `k`, else `d`. -/
def mapGetD (m : List (String × ℚ)) (k : String) (d : ℚ) : ℚ :=
match m.find? (fun p => p.1 == k) with
| some p => p.2
| none => d

/-- `map.set(k, v)`: replace the entry for `k`, else append a new one. -/
def mapSet (m : List (String × ℚ)) (k : String) (v : ℚ) : List (String × ℚ) :=
if m.any (fun p => p.1 == k) then m.map (fun p => if p.1 == k then (k, v) else p)
else m ++ [(k, v)]

/-- `map.size`: number of distinct keys. -/
def mapSize (m : List (String × ℚ)) : Nat := (m.map Prod.fst).eraseDups.length

/-- Membership in a set of strings (`Set.has`). -/
def setHas (s : List String) (k : String) : Bool := s.contains k

/-- `set.add(k)`: add a key if not present. -/
def setAdd (s : List String) (k : String) : List String :=
if s.contains k then s else s ++ [k]

/-! ### Stable descending sort

`Array.prototype.sort` with a numeric comparator `(a, b) => f(b) - f(a)` is a
stable descending sort (ES2019); it is modelled as a stable insertion sort. -/

/-- Insert `x` into a descending-sorted list, after entries of equal rank. -/
def insDescBy {α : Type} (f : α → ℚ) (x : α) : List α → List α
| [] => [x]
| y :: ys => if f y < f x then x :: y :: ys else y :: insDescBy f x ys

/-- Stable descending sort by rank `f`. -/
def sortDescBy {α : Type} (f : α → ℚ) (l : List α) : List α :=
l.foldl (fun acc x => insDescBy f x acc) []

/-! ### Data model (`types.ts`) -/

/-- Step kinds of a proof step (`ProofStep.type`). -/
inductive StepType where
| assumption
| deduction
| verification
| conclusion
deriving DecidableEq

/-- String rendering of a step type, as used by string-keyed checks. -/
def StepType.str : StepType → String
| .assumption => "assumption"
| .deduction => "deduction"
| .verification => "verification"
| .conclusion => "conclusion"

/-- Evidence kinds (`Evidence.type`). -/
inductive EvidenceType where
| experimental
| theoretical
| computational
| literature
deriving DecidableEq

/-- String rendering of an evidence type. -/
def EvidenceType.str : EvidenceType → String
| .experimental => "experimental"
| .theoretical => "theoretical"
| .computational => "computational"
| .literature => "literature"

/-- Evidence record.  The creation sites in `verification-engine.ts` also set a
`confidence` field beyond the declared interface; it is carried along. -/
structure Evidence where
  id : String
  type : EvidenceType
  source : String
  reliability : ℚ
  relevance : ℚ
  confidence : ℚ
deriving DecidableEq

/-- Proof step record. -/
structure ProofStep where
  id : String
  type : StepType
  statement : String
  premises : List String
  rule : String
  confidence : ℚ
  evidence : List Evidence
deriving DecidableEq

/-- Final proof artifact. -/
structure Proof where
  id : String
  hypothesis : String
  conclusion : String
  steps : List ProofStep
  validity : ℚ
  completeness : ℚ
  cognitiveRelevance : ℚ
deriving DecidableEq

/-- Skin layer of the multi-scale skin model. -/
structure SkinLayer where
  id : String
  name : String
  depth : ℚ
  cellTypes : List String
  permeability : ℚ
  ph : ℚ
  functions : List String
deriving DecidableEq

/-- Skin barrier record. -/
structure SkinBarrier where
  id : String
  location : String
  type : String
  strength : ℚ
  selectivity : List String
deriving DecidableEq

/-- Transport mechanism record. -/
structure TransportMechanism where
  id : String
  type : String
  pathway : String
  efficiency : ℚ
  molecularWeightLimit : ℚ
deriving DecidableEq

/-- Multi-scale skin model. -/
structure SkinModel where
  layers : List SkinLayer
  barriers : List SkinBarrier
  transport : List TransportMechanism
deriving DecidableEq

/-- Ingredient of a verification request (`SimpleIngredient`); the optional
chemical attributes are modelled as `Option` fields. -/
structure SimpleIngredient where
  id : String
  label : String
  inci_name : Option String := none
  category : Option String := none
  molecular_weight : Option ℚ := none
  safety_rating : Option String := none
deriving DecidableEq

/-- Target effect of a verification request. -/
structure IngredientEffect where
  ingredientId : String
  targetLayer : String
  effectType : String
  magnitude : ℚ
  timeframe : ℚ
  confidence : ℚ
  mechanismOfAction : String
deriving DecidableEq

/-- JavaScript `number | string` union for constraint values. -/
inductive JsVal where
| num (q : ℚ)
| str (s : String)
deriving DecidableEq

/-- Coercion of a constraint value to a number (`Number(value)`); a string
value is modelled as 0 (no claim exercises string-valued constraints). -/
def JsVal.toNum : JsVal → ℚ
| .num q => q
| .str _ => 0

/-- Formulation constraint.  The runtime validation treats `type` and
`parameter` as plain strings, so they are modelled as `String`. -/
structure FormulationConstraint where
  type : String
  parameter : String
  value : JsVal
  operator : String
  required : Bool
deriving DecidableEq

/-- Verification request, the immutable input of one verification call. -/
structure VerificationRequest where
  hypothesis : String
  ingredients : List SimpleIngredient
  targetEffects : List IngredientEffect
  constraints : List FormulationConstraint
  skinModel : SkinModel
deriving DecidableEq

/-- Alternative formulation suggestion. -/
structure AlternativeFormulation where
  ingredients : List SimpleIngredient
  reasoning : String
  expectedImprovement : String
  tradeoffs : List String
  confidence : ℚ
deriving DecidableEq

/-- Result of one verification call. -/
structure VerificationResult where
  isValid : Bool
  confidence : ℚ
  proof : Proof
  warnings : List String
  recommendations : List String
  alternativeFormulations : List AlternativeFormulation
deriving DecidableEq

/-- Relevance realization context. -/
structure RelevanceContext where
  currentGoal : String
  activeIngredients : List String
  skinCondition : String
  userConstraints : List String
  environmentalFactors : List (String × ℚ)
deriving DecidableEq

/-- Process-wide cognitive state of the cognitive accounting system. -/
structure CognitiveState where
  relevanceWeights : List (String × ℚ)
  attentionalFocus : List String
  memoryActivation : List (String × ℚ)
  uncertaintyLevels : List (String × ℚ)
deriving DecidableEq

/-- Initial cognitive state (`initializeCognitiveState`): all maps empty. -/
def initializeCognitiveState : CognitiveState :=
{ relevanceWeights := [], attentionalFocus := [], memoryActivation := [],
  uncertaintyLevels := [] }

/-! ### Cognitive accounting system (`cognitive-accounting.ts`)

The constructor defaults are `relevanceThreshold = 0.5`,
`attentionCapacity = 7`, `memoryDecayRate = 0.1`.  `Math.exp` in the memory
decay is abstracted as the parameter `expFn`; the claims proved below hold
for every choice of `expFn`, in particular for the exponential. -/

namespace Cognitive

/-- Inner update of `updateRelevanceWeights`: increment the weight of one
active ingredient by 0.2 when the goal mentions it (case-insensitively),
else by 0.1. -/
def bumpWeight (goal : String) (m : List (String × ℚ)) (ingredientId : String) :
    List (String × ℚ) :=
mapSet m ingredientId
  (qadd (mapGetD m ingredientId 0)
    (if strIncludesCI goal ingredientId then mkRat 2 10 else mkRat 1 10))

/-- Decay applied to every weight after the increments: multiply by
`1 - memoryDecayRate` and delete entries below 0.01. -/
def decayWeights (decayRate : ℚ) (m : List (String × ℚ)) : List (String × ℚ) :=
(m.map (fun p => (p.1, qmul p.2 (qsub 1 decayRate)))).filter
  (fun p => ¬ p.2 < mkRat 1 100)

/-- `updateRelevanceWeights`. -/
def updateRelevanceWeights (decayRate : ℚ) (ctx : RelevanceContext)
    (m : List (String × ℚ)) : List (String × ℚ) :=
decayWeights decayRate (ctx.activeIngredients.foldl (bumpWeight ctx.currentGoal) m)

/-- `updateAttentionalFocus`: score the focus candidates against the current
relevance weights (default 0.1) and keep the top `capacity` of them. -/
def updateAttentionalFocus (capacity : Nat) (ctx : RelevanceContext)
    (weights : List (String × ℚ)) : List String :=
(List.take capacity
  (sortDescBy (fun focus => mapGetD weights focus (mkRat 1 10))
    (([ctx.currentGoal] ++ ctx.activeIngredients ++ [ctx.skinCondition] ++
        ctx.userConstraints).filter (fun s => s ≠ ""))))

/-- `updateMemoryActivation`: refresh goal, skin condition and each ingredient at
the current time, then decay every entry by `expFn (-age / 1h)`, deleting
entries whose decay factor drops below 0.1.  As in the source, the stored
value is `timestamp * decayFactor`. -/
def updateMemoryActivation (expFn : ℚ → ℚ) (now : ℚ) (ctx : RelevanceContext)
    (m : List (String × ℚ)) : List (String × ℚ) :=
((((ctx.activeIngredients.foldl
      (fun acc ingredientId => mapSet acc ("ingredient_" ++ ingredientId) now) m)
    |> (fun acc => mapSet acc "current_goal" now))
    |> (fun acc => mapSet acc "skin_condition" now))
  |> (fun acc =>
      (acc.map (fun p =>
          (p.1, p.2, expFn (qneg (qdiv (qsub now p.2) 3600000))))).filterMap
        (fun t => if t.2.2 < mkRat 1 10 then none
          else some (t.1, qmul t.2.1 t.2.2))))

/-- `updateUncertaintyLevels`. -/
def updateUncertaintyLevels (ctx : RelevanceContext)
    (m : List (String × ℚ)) : List (String × ℚ) :=
let complexityUncertainty :=
  min (qdiv ((ctx.activeIngredients.length : ℚ) * (ctx.userConstraints.length : ℚ)) 100)
    (mkRat 8 10)
let informationUncertainty :=
  max (mkRat 1 10) (qsub 1 (qdiv ((mapSize ctx.environmentalFactors : ℚ)) 10))
mapSet
  (mapSet (mapSet m "complexity" complexityUncertainty)
    "information" informationUncertainty)
  "overall" (qdiv (qadd complexityUncertainty informationUncertainty) 2)

/-- `updateCognitiveState`: the four sub-updates in source order. -/
def updateCognitiveState (expFn : ℚ → ℚ) (capacity : Nat) (decayRate : ℚ)
    (ctx : RelevanceContext) (now : ℚ) (st : CognitiveState) : CognitiveState :=
let weights := updateRelevanceWeights decayRate ctx st.relevanceWeights
{ relevanceWeights := weights
  attentionalFocus := updateAttentionalFocus capacity ctx weights
  memoryActivation := updateMemoryActivation expFn now ctx st.memoryActivation
  uncertaintyLevels := updateUncertaintyLevels ctx st.uncertaintyLevels }

/-- State after a finite sequence of `updateCognitiveState` calls starting
from the initial state of a freshly constructed system. -/
def runUpdates (expFn : ℚ → ℚ) (capacity : Nat) (decayRate : ℚ)
    (calls : List (RelevanceContext × ℚ)) : CognitiveState :=
calls.foldl
  (fun st c => updateCognitiveState expFn capacity decayRate c.1 c.2 st)
  initializeCognitiveState

end Cognitive

/-- Mean of a list of rationals (0/0 for the empty list is never reached on
the embedded paths). -/
def qmean (l : List ℚ) : ℚ := qdiv (l.foldl qadd 0) (l.length : ℚ)

/-! ### Relevance realization system (`relevance-realization.ts`)

The salience patterns, coherence rules and elegance metrics are the constant
tables installed by the constructor; the context history is write-only on the
`realizeRelevance` path and therefore not modelled. -/

namespace Realize


/-- Constant salience pattern table: alternation literals of each
case-insensitive regular expression, with the pattern weight. -/
def saliencePatterns : List (List String × ℚ) :=
[ (["ingredient", "compound", "chemical", "molecule"], mkRat 2 10),
  (["effect", "benefit", "improve", "enhance", "reduce", "increase"], mkRat 25 100),
  (["safe", "safety", "toxic", "harm", "risk", "danger"], mkRat 3 10),
  (["interact", "synerg", "antagon", "compatible", "incompatible"], mkRat 2 10),
  (["mechanism", "pathway", "process", "reaction", "binding"], mkRat 15 100),
  (["epidermis", "dermis", "subcutaneous", "stratum", "barrier"], mkRat 25 100),
  (["penetrat", "absorb", "permeab", "transport", "diffus"], mkRat 2 10) ]

/-- Sum of the weights of the patterns matching a statement. -/
def patternSalience (statement : String) : ℚ :=
saliencePatterns.foldl
  (fun acc p =>
    if p.1.any (fun lit => strIncludesCI statement lit) then qadd acc p.2 else acc)
  0

/-- `calculateContextualSalience`. -/
def contextualSalience (step : ProofStep) (ctx : RelevanceContext) : ℚ :=
let s1 := if strIncludesCI step.statement ctx.currentGoal then mkRat 3 10 else 0
let s2 := qadd s1
  (qmul ((ctx.activeIngredients.filter
      (fun ing => strIncludesCI step.statement ing)).length : ℚ) (mkRat 1 10))
let s3 := qadd s2
  (if strIncludesCI step.statement ctx.skinCondition then mkRat 2 10 else 0)
let s4 := qadd s3
  (qmul ((ctx.userConstraints.filter
      (fun c => strIncludesCI step.statement c)).length : ℚ) (mkRat 5 100))
min s4 (mkRat 8 10)

/-- `calculateCognitiveSalience`. -/
def cognitiveSalience (step : ProofStep) (cog : CognitiveState) : ℚ :=
let memory := cog.memoryActivation.foldl
  (fun acc p =>
    if strIncludesCI step.statement p.1 then
      qadd acc (min (qdiv p.2 1000000) (mkRat 2 10))
    else acc)
  0
let weights := cog.relevanceWeights.foldl
  (fun acc p =>
    if strIncludesCI step.statement p.1 then qadd acc (qmul p.2 (mkRat 1 10)) else acc)
  memory
min weights (mkRat 5 10)

/-- `calculateAttentionalSalience`. -/
def attentionalSalience (step : ProofStep) (cog : CognitiveState) : ℚ :=
min
  (cog.attentionalFocus.foldl
    (fun acc focus =>
      if strIncludesCI step.statement focus then qadd acc (mkRat 15 100) else acc)
    0)
  (mkRat 6 10)

/-- `detectSalience` for one step: pattern, contextual, cognitive and
attentional salience, clipped at 1. -/
def salienceOf (step : ProofStep) (ctx : RelevanceContext) (cog : CognitiveState) : ℚ :=
min
  (qadd (qadd (qadd (patternSalience step.statement) (contextualSalience step ctx))
      (cognitiveSalience step cog))
    (attentionalSalience step cog))
  1

/-- Confidence variance of a batch of steps, as in the
`consistent_confidence_levels` coherence rule. -/
def confidenceVariance (steps : List ProofStep) : ℚ :=
let confidences := steps.map (fun s => s.confidence)
let avg := qmean confidences
qdiv (confidences.foldl (fun acc c => qadd acc (qmul (qsub c avg) (qsub c avg))) 0)
  (confidences.length : ℚ)

/-- Sum of the boosts of the three coherence rules on a batch of steps. -/
def ruleBoosts (batch : List ProofStep) : ℚ :=
let b1 := if batch.any (fun s => s.type = .assumption) ∧
    batch.any (fun s => s.type = .conclusion) then mkRat 2 10 else 0
let b2 := qadd b1
  (if (batch.filter (fun s => s.type = .verification)).length > 0 ∧
      (batch.filter (fun s => s.type = .conclusion)).length > 0 then mkRat 15 100
    else 0)
qadd b2 (if confidenceVariance batch < mkRat 1 10 then mkRat 1 10 else 0)

/-- `calculateDependencyCoherence`. -/
def dependencyCoherence (step : ProofStep) (allSteps : List ProofStep) : ℚ :=
let satisfied := step.premises.filter
  (fun premise => allSteps.any
    (fun s => s.id == premise || strIncludes s.statement premise))
let c1 := qmul (qdiv (satisfied.length : ℚ) (max (step.premises.length : ℚ) 1))
  (mkRat 3 10)
let supports := allSteps.filter
  (fun s => s.premises.contains step.id ||
    strIncludes s.statement (strTake step.statement 20))
qadd c1 (min (qmul (supports.length : ℚ) (mkRat 1 10)) (mkRat 2 10))

/-- `calculateNarrativeCoherence`. -/
def narrativeCoherence (step : ProofStep) (ctx : RelevanceContext) : ℚ :=
let c1 := if step.type = .assumption ∧ strIncludesCI step.statement "assume" then
    mkRat 2 10 else 0
let c2 := qadd c1
  (if step.type = .verification ∧
      (strIncludesCI step.statement "verify" ∨ strIncludesCI step.statement "check") then
    mkRat 2 10 else 0)
let c3 := qadd c2
  (if step.type = .conclusion ∧ strIncludesCI step.statement "therefore" then
    mkRat 2 10 else 0)
qadd c3 (if strIncludesCI step.statement ctx.skinCondition then mkRat 1 10 else 0)

/-- `extractTimeFromId`: the value of the trailing `_<digits>` suffix of an
identifier, else 0 (the regular expression `_(\d+)$`). -/
def extractTimeFromId (id : String) : ℚ :=
let rev := id.data.reverse
let ds := rev.takeWhile Char.isDigit
if ds.length > 0 ∧ (rev.drop ds.length).head? = some '_' then
  (digitsToNat ds.reverse : ℚ)
else 0

/-- `calculateTemporalCoherence`. -/
def temporalCoherence (step : ProofStep) (allSteps : List ProofStep) : ℚ :=
min
  (step.premises.foldl
    (fun acc premise =>
      match allSteps.find? (fun s => s.id == premise) with
      | some premiseStep =>
        if extractTimeFromId premiseStep.id < extractTimeFromId step.id then
          qadd acc (mkRat 1 10)
        else acc
      | none => acc)
    (mkRat 2 10))
  (mkRat 5 10)

/-- `assessCoherence` for one step: base 0.5 plus rule boosts on the batch
`[step, …others]`, dependency, narrative and temporal coherence, clipped
at 1. -/
def coherenceOf (step : ProofStep) (steps : List ProofStep) (ctx : RelevanceContext) : ℚ :=
let batch := step :: steps.filter (fun s => s.id ≠ step.id)
min
  (qadd (qadd (qadd (qadd (mkRat 5 10) (ruleBoosts batch))
        (dependencyCoherence step steps))
      (narrativeCoherence step ctx))
    (temporalCoherence step steps))
  1

/-- `evaluateElegance` for one step: the four weighted elegance metrics,
clipped at 1. -/
def eleganceOf (step : ProofStep) : ℚ :=
let simplicity := max 0 (qsub 1 (qmul ((step.premises.length + step.evidence.length : Nat) : ℚ)
  (mkRat 1 10)))
let evidenceQuality := if step.evidence.length = 0 then mkRat 1 10
  else qmean (step.evidence.map (fun e => e.reliability))
let clarity := min 1 (qdiv 100 (strLen step.statement : ℚ))
min
  (qadd (qadd (qadd (qmul simplicity (mkRat 3 10)) (qmul step.confidence (mkRat 4 10)))
      (qmul evidenceQuality (mkRat 2 10)))
    (qmul clarity (mkRat 1 10)))
  1

/-- Result record of `realizeRelevance`. -/
structure RealizeResult where
  relevantSteps : List ProofStep
  salienceScores : List (String × ℚ)
  coherenceScores : List (String × ℚ)
  eleganceScores : List (String × ℚ)
  overallRelevance : List (String × ℚ)

/-- `realizeRelevance`: the four phases followed by filtering at overall
relevance 0.3 and stable descending sort. -/
def realizeRelevance (candidateSteps : List ProofStep) (ctx : RelevanceContext)
    (cog : CognitiveState) : RealizeResult :=
let salience := candidateSteps.foldl
  (fun m step => mapSet m step.id (salienceOf step ctx cog)) []
let coherence := candidateSteps.foldl
  (fun m step => mapSet m step.id (coherenceOf step candidateSteps ctx)) []
let elegance := candidateSteps.foldl
  (fun m step => mapSet m step.id (eleganceOf step)) []
let overall := salience.map
  (fun p => (p.1,
    qadd (qadd (qmul p.2 (mkRat 4 10)) (qmul (mapGetD coherence p.1 0) (mkRat 4 10)))
      (qmul (mapGetD elegance p.1 0) (mkRat 2 10))))
{ relevantSteps :=
    sortDescBy (fun step => mapGetD overall step.id 0)
      (candidateSteps.filter (fun step => mapGetD overall step.id 0 > mkRat 3 10))
  salienceScores := salience
  coherenceScores := coherence
  eleganceScores := elegance
  overallRelevance := overall }

end Realize

/-! ### Verification engine (`verification-engine.ts`)

`Date.now()` is the parameter `now : Nat`; every identifier built from it in
one pipeline run uses the same clock value.  The engine's private
`CognitiveAccountingSystem` is created fresh in the constructor and never
updated on this path, so `verifyFormulationHypothesis` takes the cognitive
state it reads as the parameter `cog`. -/

namespace Engine

/-- `validateRequest`: first failing check wins, as with thrown exceptions.
`JSON.stringify` of the offending record is modelled by the renderings
`jsonIngredient`/`jsonConstraint` below (their exact text is irrelevant to
every claim). -/
def jsonIngredient (ing : SimpleIngredient) : String :=
"\x7b\"id\":\"" ++ ing.id ++ "\",\"label\":\"" ++ ing.label ++ "\"\x7d"

/-- Rendering of a constraint for the validation error message. -/
def jsonConstraint (c : FormulationConstraint) : String :=
"\x7b\"type\":\"" ++ c.type ++ "\",\"parameter\":\"" ++ c.parameter ++ "\"\x7d"

/-- `validateRequest`. -/
def validateRequest (request : VerificationRequest) :
    Except String VerificationRequest :=
if request.hypothesis = "" ∨ request.ingredients = [] then
  .error "Invalid verification request: missing required fields"
else
  match request.ingredients.find? (fun ing => ing.id == "" || ing.label == "") with
  | some ing => .error ("Invalid ingredient data: " ++ jsonIngredient ing)
  | none =>
    match request.constraints.find? (fun c => c.type == "" || c.parameter == "") with
    | some c => .error ("Invalid constraint: " ++ jsonConstraint c)
    | none => .ok request

/-- `createAssumptionStep`. -/
def createAssumptionStep (now : Nat) (request : VerificationRequest) : ProofStep :=
{ id := "assumption_" ++ toString now
  type := .assumption
  statement := "Assume: " ++ request.hypothesis
  premises := []
  rule := "initial_hypothesis"
  confidence := 1
  evidence := [{ id := "evidence_" ++ toString now, type := .theoretical,
                 source := "user_hypothesis", reliability := mkRat 8 10, relevance := 1,
                 confidence := mkRat 8 10 }] }

/-- `createSafetyVerificationStep`. -/
def createSafetyVerificationStep (now : Nat) (ingredient : SimpleIngredient) : ProofStep :=
{ id := "safety_" ++ ingredient.id ++ "_" ++ toString now
  type := .verification
  statement := "Ingredient " ++ ingredient.label ++ " meets safety requirements"
  premises := ["ingredient_" ++ ingredient.id]
  rule := "safety_verification"
  confidence := mkRat 85 100
  evidence := [{ id := "safety_evidence_" ++ toString now, type := .experimental,
                 source := "safety_database", reliability := mkRat 9 10, relevance := 1,
                 confidence := mkRat 9 10 }] }

/-- `createCompatibilityStep`. -/
def createCompatibilityStep (now : Nat) (ing1 ing2 : SimpleIngredient) : ProofStep :=
{ id := "compatibility_" ++ ing1.id ++ "_" ++ ing2.id ++ "_" ++ toString now
  type := .verification
  statement := "Ingredients " ++ ing1.label ++ " and " ++ ing2.label ++ " are compatible"
  premises := ["ingredient_" ++ ing1.id, "ingredient_" ++ ing2.id]
  rule := "compatibility_check"
  confidence := mkRat 8 10
  evidence := [{ id := "compat_evidence_" ++ toString now, type := .literature,
                 source := "compatibility_studies", reliability := mkRat 8 10,
                 relevance := mkRat 9 10, confidence := mkRat 8 10 }] }

/-- `createEffectVerificationStep`. -/
def createEffectVerificationStep (now : Nat) (effect : IngredientEffect) : ProofStep :=
{ id := "effect_" ++ effect.ingredientId ++ "_" ++ toString now
  type := .verification
  statement := effect.effectType ++ " can be achieved in " ++ effect.targetLayer
  premises := ["ingredient_" ++ effect.ingredientId, "layer_" ++ effect.targetLayer]
  rule := "effect_verification"
  confidence := effect.confidence
  evidence := [{ id := "effect_evidence_" ++ toString now, type := .literature,
                 source := "efficacy_studies", reliability := mkRat 8 10,
                 relevance := mkRat 9 10, confidence := mkRat 8 10 }] }

/-- `createConstraintVerificationStep`. -/
def createConstraintVerificationStep (now : Nat) (c : FormulationConstraint) : ProofStep :=
{ id := "constraint_" ++ c.type ++ "_" ++ toString now
  type := .verification
  statement := "Constraint " ++ c.type ++ ":" ++ c.parameter ++ " is satisfied"
  premises := ["formulation_parameters"]
  rule := "constraint_verification"
  confidence := mkRat 9 10
  evidence := [{ id := "constraint_evidence_" ++ toString now, type := .computational,
                 source := "constraint_checker", reliability := mkRat 95 100, relevance := 1,
                 confidence := mkRat 95 100 }] }

/-- `createPenetrationStep`. -/
def createPenetrationStep (now : Nat) (ingredient : SimpleIngredient) : ProofStep :=
{ id := "penetration_" ++ ingredient.id ++ "_" ++ toString now
  type := .deduction
  statement := ingredient.label ++ " penetration depth calculated"
  premises := ["ingredient_" ++ ingredient.id, "skin_model"]
  rule := "penetration_modeling"
  confidence := mkRat 75 100
  evidence := [{ id := "penetration_evidence_" ++ toString now, type := .computational,
                 source := "tensor_modeling", reliability := mkRat 8 10,
                 relevance := mkRat 8 10, confidence := mkRat 8 10 }] }

/-- Unordered ingredient pairs in index order, as produced by the nested
loops of `generateCandidateSteps`. -/
def ingredientPairs :
    List SimpleIngredient → List (SimpleIngredient × SimpleIngredient)
| [] => []
| x :: xs => xs.map (fun y => (x, y)) ++ ingredientPairs xs

/-- `generateCandidateSteps`. -/
def generateCandidateSteps (now : Nat) (request : VerificationRequest) :
    List ProofStep :=
[createAssumptionStep now request] ++
  request.ingredients.map (createSafetyVerificationStep now) ++
  (ingredientPairs request.ingredients).map
    (fun p => createCompatibilityStep now p.1 p.2) ++
  request.targetEffects.map (createEffectVerificationStep now) ++
  request.constraints.map (createConstraintVerificationStep now) ++
  request.ingredients.map (createPenetrationStep now)

/-- `extractPhFromConstraints`. -/
def extractPhFromConstraints (constraints : List FormulationConstraint) : ℚ :=
match constraints.find? (fun c => c.parameter == "ph") with
| some c => c.value.toNum
| none => 7

/-- `extractTemperatureFromConstraints`. -/
def extractTemperatureFromConstraints (constraints : List FormulationConstraint) : ℚ :=
match constraints.find? (fun c => c.parameter == "temperature") with
| some c => c.value.toNum
| none => 25

/-- `createRelevanceContext`. -/
def createRelevanceContext (request : VerificationRequest) : RelevanceContext :=
{ currentGoal := request.hypothesis
  activeIngredients := request.ingredients.map (fun ing => ing.id)
  skinCondition :=
    match request.targetEffects.head? with
    | some effect => if effect.targetLayer = "" then "epidermis" else effect.targetLayer
    | none => "epidermis"
  userConstraints := request.constraints.map (fun c => c.type ++ ":" ++ c.parameter)
  environmentalFactors :=
    [("ph", extractPhFromConstraints request.constraints),
     ("temperature", extractTemperatureFromConstraints request.constraints)] }

/-- One pass of the dependency-ordering loop of `orderStepsLogically`:
append every not-yet-processed non-conclusion step whose premises are all
either processed ids or substrings of an already ordered statement. -/
def orderPass (steps : List ProofStep) (st : List ProofStep × List String × Bool) :
    List ProofStep × List String × Bool :=
steps.foldl
  (fun acc step =>
    let ordered := acc.1
    let processed := acc.2.1
    if ¬ processed.contains step.id ∧ step.type ≠ .conclusion ∧
        step.premises.all
          (fun p => processed.contains p ||
            ordered.any (fun s => strIncludes s.statement p)) then
      (ordered ++ [step], setAdd processed step.id, true)
    else acc)
  (st.1, st.2.1, false)

/-- The `while (added && processed.size < steps.length)` loop, with enough
fuel for every reachable execution (each continued pass processes at least
one new step). -/
def orderLoop (steps : List ProofStep) :
    Nat → List ProofStep → List String → Bool → List ProofStep
| 0, ordered, _, _ => ordered
| fuel + 1, ordered, processed, added =>
  if added ∧ processed.length < steps.length then
    let next := orderPass steps (ordered, processed, false)
    orderLoop steps fuel next.1 next.2.1 next.2.2
  else ordered

/-- `orderStepsLogically`. -/
def orderStepsLogically (steps : List ProofStep) : List ProofStep :=
let start := steps.foldl
  (fun acc step =>
    if step.type = .assumption then (acc.1 ++ [step], setAdd acc.2 step.id) else acc)
  (([] : List ProofStep), ([] : List String))
orderLoop steps (steps.length + 1) start.1 start.2 true

/-- `generateConclusionStep`. -/
def generateConclusionStep (now : Nat) (steps : List ProofStep)
    (request : VerificationRequest) : ProofStep :=
let avgConfidence := qdiv (steps.foldl (fun acc s => qadd acc s.confidence) 0)
  (steps.length : ℚ)
{ id := "conclusion_" ++ toString now
  type := .conclusion
  statement :=
    if avgConfidence > mkRat 7 10 then
      "The hypothesis \"" ++ request.hypothesis ++ "\" is supported by the evidence"
    else
      "The hypothesis \"" ++ request.hypothesis ++ "\" requires further investigation"
  premises := steps.map (fun s => s.id)
  rule := "logical_synthesis"
  confidence := avgConfidence
  evidence := [] }

/-- `calculateProofValidity`: mean step confidence. -/
def calculateProofValidity (steps : List ProofStep) : ℚ :=
qdiv (steps.foldl (fun acc s => qadd acc s.confidence) 0) (steps.length : ℚ)

/-- `calculateProofCompleteness` of the verification engine: required step
types are `assumption` and `verification`, plus `deduction` when the request
has target effects; `conclusion` is not among them. -/
def calculateProofCompleteness (steps : List ProofStep)
    (request : VerificationRequest) : ℚ :=
let requiredTypes := ["assumption", "verification"] ++
  (if request.targetEffects.length ≠ 0 then ["deduction"] else [])
let presentTypes := steps.map (fun s => s.type.str)
let coverage := (requiredTypes.filter (fun t => presentTypes.contains t)).length
qdiv (coverage : ℚ) (requiredTypes.length : ℚ)

/-- `calculateCognitiveRelevance`: mean over steps of the mean evidence
relevance, with 0.1 for steps without evidence. -/
def calculateCognitiveRelevance (steps : List ProofStep) : ℚ :=
qmean (steps.map (fun s =>
  if s.evidence.length = 0 then mkRat 1 10
  else qmean (s.evidence.map (fun e => e.relevance))))

/-- `buildFormalProof`. -/
def buildFormalProof (now : Nat) (steps : List ProofStep)
    (request : VerificationRequest) : Proof :=
let ordered := orderStepsLogically steps
let conclusion := generateConclusionStep now ordered request
let orderedSteps := ordered ++ [conclusion]
{ id := "proof_" ++ toString now
  hypothesis := request.hypothesis
  conclusion := conclusion.statement
  steps := orderedSteps
  validity := calculateProofValidity orderedSteps
  completeness := calculateProofCompleteness orderedSteps request
  cognitiveRelevance := calculateCognitiveRelevance orderedSteps }

/-- Result of `validateProofSoundness`. -/
structure Soundness where
  isValid : Bool
  confidence : ℚ
  warnings : List String

/-- `validateProofSoundness`. -/
def validateProofSoundness (proof : Proof) : Soundness :=
let gap := proof.completeness < mkRat 7 10
let confidence1 := if gap then qmul proof.validity (mkRat 8 10) else proof.validity
let lowConfidenceSteps := proof.steps.filter (fun s => s.confidence < mkRat 5 10)
let confidence2 := if lowConfidenceSteps.length > 0 then
    qmul confidence1 (mkRat 9 10)
  else confidence1
let invalid := proof.validity < mkRat 6 10
{ isValid := ¬ invalid
  confidence := min confidence2 1
  warnings :=
    (if gap then
        ["Proof may have logical gaps - consider additional verification steps"]
      else []) ++
    (if lowConfidenceSteps.length > 0 then
        [toString lowConfidenceSteps.length ++
          " steps have low confidence - additional evidence recommended"]
      else []) ++
    (if invalid then ["Proof validity is below acceptable threshold"] else []) }

/-- `createReducedRiskFormulation` (a fixed-shape record). -/
def createReducedRiskFormulation (request : VerificationRequest) :
    AlternativeFormulation :=
{ ingredients := request.ingredients
  reasoning := "Reduced concentration of high-risk ingredients"
  expectedImprovement := "Improved safety profile"
  tradeoffs := ["Potentially reduced efficacy"]
  confidence := mkRat 7 10 }

/-- `createEnhancedPenetrationFormulation`. -/
def createEnhancedPenetrationFormulation (request : VerificationRequest) :
    AlternativeFormulation :=
{ ingredients := request.ingredients
  reasoning := "Added penetration enhancers"
  expectedImprovement := "Improved ingredient delivery"
  tradeoffs := ["Increased complexity"]
  confidence := mkRat 6 10 }

/-- `createSimplifiedFormulation`. -/
def createSimplifiedFormulation (request : VerificationRequest) :
    AlternativeFormulation :=
{ ingredients := request.ingredients.take 3
  reasoning := "Simplified ingredient list"
  expectedImprovement := "Reduced interaction complexity"
  tradeoffs := ["Potentially reduced functionality"]
  confidence := mkRat 8 10 }

/-- `generateAlternativeFormulations`: the three strategies in order. -/
def generateAlternativeFormulations (request : VerificationRequest) :
    List AlternativeFormulation :=
[createReducedRiskFormulation request, createEnhancedPenetrationFormulation request,
 createSimplifiedFormulation request]

/-- `generateRecommendations`. -/
def generateRecommendations (proof : Proof) (request : VerificationRequest) :
    List String × List AlternativeFormulation :=
let s1 := if proof.validity < mkRat 8 10 then
    ["Consider adding more supporting evidence for ingredient interactions"] else []
let s2 := if proof.completeness < mkRat 8 10 then
    ["Additional verification steps may strengthen the proof"] else []
let safetySteps := proof.steps.filter
  (fun s => strIncludes s.statement "safety" || strIncludes s.statement "risk")
let s3 := if safetySteps.any (fun s => s.confidence < mkRat 7 10) then
    ["Review safety profiles of ingredients with lower confidence scores"] else []
let alternatives := if proof.validity < mkRat 7 10 then
    generateAlternativeFormulations request else []
(s1 ++ s2 ++ s3, alternatives)

/-- `createFailureResult`. -/
def createFailureResult (now : Nat) (hypothesis : String) (error : String) :
    VerificationResult :=
{ isValid := false
  confidence := 0
  proof :=
    { id := "failed_proof_" ++ toString now
      hypothesis := hypothesis
      conclusion := "Verification failed"
      steps := []
      validity := 0
      completeness := 0
      cognitiveRelevance := 0 }
  warnings := ["Verification failed: " ++ error]
  recommendations := ["Review input parameters and try again"]
  alternativeFormulations := [] }

/-- `verifyFormulationHypothesis`: validation, candidate generation,
relevance realization against the engine's cognitive state `cog`, proof
construction, soundness validation and recommendations; any validation error
produces the failure result. -/
def verifyFormulationHypothesis (now : Nat) (cog : CognitiveState)
    (request : VerificationRequest) : VerificationResult :=
match validateRequest request with
| .error msg => createFailureResult now request.hypothesis msg
| .ok validated =>
  let candidateSteps := generateCandidateSteps now validated
  let ra := Realize.realizeRelevance candidateSteps
    (createRelevanceContext validated) cog
  let proof := buildFormalProof now ra.relevantSteps validated
  let validation := validateProofSoundness proof
  let recs := generateRecommendations proof validated
  { isValid := validation.isValid
    confidence := validation.confidence
    proof := proof
    warnings := validation.warnings
    recommendations := recs.1
    alternativeFormulations := recs.2 }

end Engine

/-! ### Tensor operations engine (`tensor-operations.ts`)

Tensor data is modelled over `ℝ`, since the penetration formula uses
`exp`/`log`.  The `metadata.timestamp` field (`new Date()`) is not modelled;
`units` and `description` are.  The result validators compare real numbers,
so `executeOperation` is defined with classical decidability; every theorem
about it is proved symbolically. -/

namespace Tensor

/-- Tensor field: shape vector, flat data and metadata. -/
structure TensorField where
  dimensions : List Nat
  data : List ℝ
  units : String
  description : String

/-- `createScalarField`. -/
noncomputable def createScalarField (value : ℝ) (units description : String) :
    TensorField :=
{ dimensions := [1], data := [value], units := units, description := description }

/-- `validateTensorField`: non-empty shape and data.  (`isNaN` never holds in
the real-number model.) -/
def validTensorField (f : TensorField) : Prop :=
f.dimensions.length > 0 ∧ f.data.length > 0

/-- `validateConcentrationField`. -/
def validConcentrationField (f : TensorField) : Prop :=
validTensorField f ∧ ∀ x ∈ f.data, 0 ≤ x

/-- `validatePositiveField`. -/
def validPositiveField (f : TensorField) : Prop :=
validTensorField f ∧ ∀ x ∈ f.data, 0 < x

/-- `validateNormalizedField`. -/
def validNormalizedField (f : TensorField) : Prop :=
validTensorField f ∧ ∀ x ∈ f.data, 0 ≤ x ∧ x ≤ 1

/-- One-dimensional finite-difference diffusion step: interior points receive
`D·dt·(c[i+1] − 2c[i] + c[i−1])`, boundary points are copied unchanged.  All
reads are from the original data, as in the source. -/
noncomputable def diffuse1D (c : List ℝ) (D dt : ℝ) : List ℝ :=
(List.range c.length).map (fun i =>
  if 1 ≤ i ∧ i + 1 < c.length then
    c.getD i 0 + D * dt * (c.getD (i + 1) 0 - 2 * c.getD i 0 + c.getD (i - 1) 0)
  else c.getD i 0)

/-- Two-dimensional finite-difference diffusion step on a `w × h` grid stored
row-major; only interior grid points are updated. -/
noncomputable def diffuse2D (c : List ℝ) (w h : Nat) (D dt : ℝ) : List ℝ :=
(List.range c.length).map (fun idx =>
  if 1 ≤ idx % w ∧ idx % w + 1 < w ∧ 1 ≤ idx / w ∧ idx / w + 1 < h then
    c.getD idx 0 + D * dt *
      (c.getD (idx + 1) 0 + c.getD (idx - 1) 0 + c.getD (idx + w) 0 +
        c.getD (idx - w) 0 - 4 * c.getD idx 0)
  else c.getD idx 0)

/-- `diffusionOperation`. -/
noncomputable def diffusionOperation (concentration diffusivity time : TensorField) :
    TensorField :=
let dt := time.data.getD 0 0
let D := diffusivity.data.getD 0 0
let newData :=
  if concentration.dimensions.length = 1 then diffuse1D concentration.data D dt
  else if concentration.dimensions.length = 2 then
    diffuse2D concentration.data (concentration.dimensions.getD 0 0)
      (concentration.dimensions.getD 1 0) D dt
  else concentration.data
{ dimensions := concentration.dimensions, data := newData,
  units := concentration.units, description := "Diffused concentration field" }

/-- `penetrationDepthOperation`: the closed-form depth
`100·exp(−MW/1000)·clip(logP, 0.1, 2.0)·min(2.0, ln(conc + 1))`. -/
noncomputable def penetrationDepthOperation (mw logP conc : TensorField) :
    TensorField :=
let molecularWeight := mw.data.getD 0 0
let partitionCoeff := logP.data.getD 0 0
let concentration := conc.data.getD 0 0
let mwFactor := Real.exp (-(molecularWeight) / 1000)
let logPFactor := min 2 (max (1 / 10) partitionCoeff)
let concFactor := min 2 (Real.log (concentration + 1))
createScalarField (100 * mwFactor * logPFactor * concFactor) "micrometers"
  "Calculated penetration depth"

/-- `layerTransportOperation`: flux proportional to the elementwise
source−target gradient. -/
noncomputable def layerTransportOperation (source target transport : TensorField) :
    TensorField :=
let transportCoeff := transport.data.getD 0 0
{ dimensions := source.dimensions
  data := (List.range source.data.length).map
    (fun i => (source.data.getD i 0 - target.data.getD i 0) * transportCoeff)
  units := source.units
  description := "Layer transport flux" }

/-- `tensorAddOperation`: elementwise sum, failing on mismatched shapes.
(After the shape check both well-formed fields have equal data length; an
out-of-range read of the second field is modelled as 0.) -/
noncomputable def tensorAddOperation (a b : TensorField) :
    Except String TensorField :=
if a.dimensions = b.dimensions then
  .ok { dimensions := a.dimensions
        data := (List.range a.data.length).map
          (fun i => a.data.getD i 0 + b.data.getD i 0)
        units := a.units
        description := "Tensor sum" }
else .error "Tensor dimensions must match for addition"

/-- `ingredientInteractionOperation`: elementwise product scaled by the
interaction coefficient (missing entries of the second field read as 0). -/
noncomputable def ingredientInteractionOperation (ing1 ing2 interaction : TensorField) :
    TensorField :=
let interactionCoeff := interaction.data.getD 0 0
{ dimensions := ing1.dimensions
  data := (List.range ing1.data.length).map
    (fun i => ing1.data.getD i 0 * ing2.data.getD i 0 * interactionCoeff)
  units := ing1.units
  description := "Ingredient interaction field" }

/-- `barrierFunctionOperation`: elementwise permeability × integrity. -/
noncomputable def barrierFunctionOperation (integrity permeability : TensorField) :
    TensorField :=
{ dimensions := integrity.dimensions
  data := (List.range integrity.data.length).map
    (fun i => permeability.data.getD i 0 * integrity.data.getD i 0)
  units := "cm/s"
  description := "Effective barrier permeability" }

/-- `effectivenessOperation`: elementwise
`min(1, conc·targetDensity·mechanism/100)`, where a missing mechanism entry
reads as 1 (the `|| 1` default). -/
noncomputable def effectivenessOperation (concentration target mechanism : TensorField) :
    TensorField :=
{ dimensions := concentration.dimensions
  data := (List.range concentration.data.length).map
    (fun i =>
      let mech := match mechanism.data.get? i with
        | some m => if m = 0 then 1 else m
        | none => 1
      min 1 (concentration.data.getD i 0 * target.data.getD i 0 * mech / 100))
  units := "unitless"
  description := "Calculated effectiveness" }

/-- Arity (declared `inputFields` length) of each registered operation. -/
def opArity : String → Option Nat
| "diffusion" => some 3
| "penetration_depth" => some 3
| "layer_transport" => some 3
| "tensor_add" => some 2
| "ingredient_interaction" => some 3
| "barrier_function" => some 2
| "effectiveness_calculation" => some 3
| _ => none

/-- Body of each registered operation on its validated input list. -/
noncomputable def opBody (name : String) (inputs : List TensorField) :
    Except String TensorField :=
match name, inputs with
| "diffusion", [c, d, t] => .ok (diffusionOperation c d t)
| "penetration_depth", [mw, lp, conc] => .ok (penetrationDepthOperation mw lp conc)
| "layer_transport", [s, tg, tr] => .ok (layerTransportOperation s tg tr)
| "tensor_add", [a, b] => tensorAddOperation a b
| "ingredient_interaction", [a, b, i] => .ok (ingredientInteractionOperation a b i)
| "barrier_function", [i, p] => .ok (barrierFunctionOperation i p)
| "effectiveness_calculation", [c, tg, m] => .ok (effectivenessOperation c tg m)
| _, _ => .error "invalid inputs"

/-- Result validator of each registered operation. -/
def opValidation : String → TensorField → Prop
| "diffusion", f => validConcentrationField f
| "penetration_depth", f => validPositiveField f
| "layer_transport", f => validConcentrationField f
| "tensor_add", f => validTensorField f
| "ingredient_interaction", f => validConcentrationField f
| "barrier_function", f => validPositiveField f
| "effectiveness_calculation", f => validNormalizedField f
| _, _ => True

open Classical in
/-- `executeOperation`: unknown-operation, arity and result validation
failures, in source order. -/
noncomputable def executeOperation (name : String) (inputs : List TensorField) :
    Except String TensorField :=
match opArity name with
| none => .error ("Unknown tensor operation: " ++ name)
| some arity =>
  if inputs.length ≠ arity then
    .error ("Operation " ++ name ++ " expects " ++ toString arity ++ " inputs, got " ++
      toString inputs.length)
  else
    match opBody name inputs with
    | .error e => .error e
    | .ok result =>
      if opValidation name result then .ok result
      else .error ("Operation " ++ name ++ " produced invalid result")

/-- `calculatePenetrationDepth`. -/
noncomputable def calculatePenetrationDepth (molecularWeight logP concentration : ℝ) :
    Except String TensorField :=
executeOperation "penetration_depth"
  [createScalarField molecularWeight "daltons" "Molecular weight",
   createScalarField logP "unitless" "Partition coefficient",
   createScalarField concentration "mg/ml" "Concentration"]

/-- `createInteractionField`: the interaction-type coefficient
{synergistic 1.2, antagonistic 0.8, competitive 0.9, default 1.0}. -/
noncomputable def createInteractionField (interactionType : String) : TensorField :=
let value : ℝ :=
  if interactionType = "synergistic" then 12 / 10
  else if interactionType = "antagonistic" then 8 / 10
  else if interactionType = "competitive" then 9 / 10
  else 1
createScalarField value "unitless" (interactionType ++ " interaction coefficient")

end Tensor

/-! ### Hypergraph integration engine (`hypergraph-integration.ts`) -/

namespace Graph

/-- Node categories of a proof hypergraph node. -/
inductive NodeType where
| ingredient
| effect
| interaction
| constraint
| evidence
deriving DecidableEq

/-- Hyperedge categories. -/
inductive EdgeType where
| causation
| correlation
| inhibition
| enhancement
| dependency
deriving DecidableEq

/-- Heterogeneous property value of a node property map. -/
inductive PropVal where
| str (s : String)
| num (q : ℚ)
deriving DecidableEq

/-- Proof hypergraph node. -/
structure ProofNode where
  id : String
  type : NodeType
  properties : List (String × PropVal)
  relevanceScore : ℚ
deriving DecidableEq

/-- Proof hyperedge. -/
structure ProofHyperedge where
  id : String
  nodes : List String
  type : EdgeType
  weight : ℚ
  confidence : ℚ
  evidence : List Evidence
deriving DecidableEq

/-- Analysis record of a proof hypergraph. -/
structure HypergraphAnalysis where
  connectivity : ℚ
  clustering : ℚ
  criticalPaths : List (List String)
  vulnerabilities : List String
  opportunities : List String
deriving DecidableEq

/-- Proof hypergraph. -/
structure ProofHypergraph where
  nodes : List ProofNode
  hyperedges : List ProofHyperedge
  analysis : HypergraphAnalysis
deriving DecidableEq

/-- External ingredient record from the vessel data store. -/
structure Compatibility where
  synergistic : List String
  avoid : List String
  neutral : List String
deriving DecidableEq

/-- External vessel ingredient. -/
structure ExistingIngredient where
  id : String
  label : String
  inci_name : String
  category : String
  molecular_weight : String
  solubility : String
  functions : List String
  compatibility : Compatibility
  safety_rating : String
  pricing_zar : ℚ
deriving DecidableEq

/-- External vessel product. -/
structure ExistingProduct where
  id : String
  label : String
  category : String
  complexity_score : ℚ
  target_skin_type : String
  benefits : List String
deriving DecidableEq

/-- External vessel data bundle. -/
structure VesselData where
  ingredients : List ExistingIngredient
  products : List ExistingProduct
deriving DecidableEq

/-- Ingredient interaction record (`IngredientInteraction`). -/
structure IngredientInteraction where
  source : String
  target : String
  type : String
  mechanism : String
  confidence : ℚ
  evidenceLevel : String
deriving DecidableEq

/-- First property value under a key, modelling `properties.get(k)`. -/
def propGet (n : ProofNode) (k : String) : Option PropVal :=
match n.properties.find? (fun p => p.1 == k) with
| some p => some p.2
| none => none

/-- `mapStepTypeToNodeType`. -/
def mapStepTypeToNodeType : StepType → NodeType
| .assumption => .constraint
| .verification => .constraint
| .deduction => .interaction
| .conclusion => .effect

/-- `mapInteractionType`. -/
def mapInteractionType (t : String) : EdgeType :=
if t = "synergistic" then .enhancement
else if t = "antagonistic" then .inhibition
else if t = "neutral" then .correlation
else .dependency

/-- `mapEvidenceLevel`. -/
def mapEvidenceLevel (level : String) : ℚ :=
if level = "clinical" then mkRat 95 100
else if level = "in-vivo" then mkRat 85 100
else if level = "in-vitro" then mkRat 75 100
else if level = "theoretical" then mkRat 5 10
else mkRat 3 10

/-- `calculateIngredientRelevance`: mean of a safety score and a function
count score. -/
def calculateIngredientRelevance (ing : ExistingIngredient) : ℚ :=
let safetyScore := if ing.safety_rating = "high" then mkRat 9 10
  else if ing.safety_rating = "medium" then mkRat 7 10 else mkRat 5 10
let functionScore := min (qdiv (ing.functions.length : ℚ) 5) 1
qdiv (qadd safetyScore functionScore) 2

/-- `createProofNodes`: one node per step, per ingredient, and per evidence
item.  Step nodes carry `statement`/`confidence`/`rule`/`evidence_count`
properties — no `type` property. -/
def createProofNodes (steps : List ProofStep) (ingredients : List ExistingIngredient) :
    List ProofNode :=
steps.map (fun step =>
  { id := step.id
    type := mapStepTypeToNodeType step.type
    properties :=
      [("statement", .str step.statement), ("confidence", .num step.confidence),
       ("rule", .str step.rule), ("evidence_count", .num (step.evidence.length : ℚ))]
    relevanceScore := step.confidence }) ++
ingredients.map (fun ing =>
  { id := "ingredient_" ++ ing.id
    type := .ingredient
    properties :=
      [("label", .str ing.label), ("inci_name", .str ing.inci_name),
       ("category", .str ing.category), ("molecular_weight", .str ing.molecular_weight),
       ("safety_rating", .str ing.safety_rating), ("pricing_zar", .num ing.pricing_zar)]
    relevanceScore := calculateIngredientRelevance ing }) ++
steps.flatMap (fun step =>
  step.evidence.map (fun ev =>
    { id := ev.id
      type := .evidence
      properties :=
        [("type", .str ev.type.str), ("source", .str ev.source),
         ("reliability", .num ev.reliability), ("relevance", .num ev.relevance)]
      relevanceScore := ev.relevance }))

/-- `createProofHyperedges`: premise dependency edges, step→evidence
enhancement edges and ingredient interaction edges. -/
def createProofHyperedges (now : Nat) (steps : List ProofStep)
    (interactions : List IngredientInteraction) : List ProofHyperedge :=
steps.flatMap (fun step =>
  (if step.premises.length > 0 then
    [{ id := "dependency_" ++ step.id
       nodes := step.premises ++ [step.id]
       type := EdgeType.dependency
       weight := step.confidence
       confidence := step.confidence
       evidence := step.evidence }]
  else []) ++
  step.evidence.map (fun ev =>
    { id := "supports_" ++ step.id ++ "_" ++ ev.id
      nodes := [ev.id, step.id]
      type := EdgeType.enhancement
      weight := ev.reliability
      confidence := ev.reliability
      evidence := [ev] })) ++
interactions.map (fun interaction =>
  { id := "interaction_" ++ interaction.source ++ "_" ++ interaction.target
    nodes := ["ingredient_" ++ interaction.source, "ingredient_" ++ interaction.target]
    type := mapInteractionType interaction.type
    weight := interaction.confidence
    confidence := interaction.confidence
    evidence := [{ id := "interaction_evidence_" ++ toString now
                   type := EvidenceType.literature
                   source := interaction.mechanism
                   reliability := mapEvidenceLevel interaction.evidenceLevel
                   relevance := interaction.confidence
                   confidence := mapEvidenceLevel interaction.evidenceLevel }] })

/-- `calculateConnectivity`: `min(edgeCount / nodeCount, 1)`, or 0 for at
most one node. -/
def calculateConnectivity (nodes : List ProofNode) (edges : List ProofHyperedge) : ℚ :=
if nodes.length ≤ 1 then 0
else min (qdiv (edges.length : ℚ) (nodes.length : ℚ)) 1

/-- Node-type groups in first-appearance order, modelling the `Map` built by
`calculateClustering`. -/
def typeGroups (nodes : List ProofNode) : List (NodeType × List String) :=
nodes.foldl
  (fun acc n =>
    if acc.any (fun g => g.1 = n.type) then
      acc.map (fun g => if g.1 = n.type then (g.1, g.2 ++ [n.id]) else g)
    else acc ++ [(n.type, [n.id])])
  []

/-- `calculateClustering`: mean over node-type groups of internal edges over
maximal possible pairs. -/
def calculateClustering (nodes : List ProofNode) (edges : List ProofHyperedge) : ℚ :=
let groups := typeGroups nodes
let total := groups.foldl
  (fun acc g =>
    let internalEdges := (edges.filter
      (fun e => e.nodes.all (fun nodeId => g.2.contains nodeId))).length
    let maxPossibleEdges : Nat := g.2.length * (g.2.length - 1) / 2
    qadd acc
      (if maxPossibleEdges > 0 then qdiv (internalEdges : ℚ) (maxPossibleEdges : ℚ)
        else 0))
  0
if groups.length > 0 then qdiv total (groups.length : ℚ) else 0

/-- One breadth-first step of `findShortestPath`: the queue holds node ids
with their paths, `visited` the already expanded ids.  `fuel` bounds the
iteration count; it is chosen large enough for every reachable execution. -/
def bfs (edges : List ProofHyperedge) (endId : String) :
    Nat → List (String × List String) → List String → List String
| 0, _, _ => []
| _ + 1, [], _ => []
| fuel + 1, (nodeId, path) :: queue, visited =>
  if nodeId = endId then path
  else if visited.contains nodeId then bfs edges endId fuel queue visited
  else
    let connected := (edges.filter (fun e => e.nodes.contains nodeId)).flatMap
      (fun e => e.nodes) |>.filter (fun id => id ≠ nodeId ∧ ¬ visited.contains id)
    bfs edges endId fuel (queue ++ connected.map (fun id => (id, path ++ [id])))
      (visited ++ [nodeId])

/-- `findShortestPath` (breadth-first, unweighted); returns `[]` when no path
exists. -/
def findShortestPath (nodes : List ProofNode) (edges : List ProofHyperedge)
    (startId endId : String) : List String :=
bfs edges endId
  ((nodes.length + edges.foldl (fun acc e => acc + e.nodes.length) 0 + 2) *
    (edges.foldl (fun acc e => acc + e.nodes.length) 0 + 2))
  [(startId, [startId])] []

/-- `findCriticalPaths`: shortest paths from every node whose `type`
*property* is `"assumption"` to every node whose `type` property is
`"conclusion"`.  Step nodes never carry a `type` property, so both filters
are empty on every graph built by `createProofNodes`. -/
def findCriticalPaths (nodes : List ProofNode) (edges : List ProofHyperedge) :
    List (List String) :=
let assumptionNodes := nodes.filter (fun n => propGet n "type" = some (.str "assumption"))
let conclusionNodes := nodes.filter (fun n => propGet n "type" = some (.str "conclusion"))
(assumptionNodes.flatMap (fun a =>
  conclusionNodes.map (fun c => findShortestPath nodes edges a.id c.id))).filter
  (fun path => path.length > 0)

/-- Numeric property read with JavaScript falsy default:
`(properties.get(k) || d)`. -/
def propNumOr (n : ProofNode) (k : String) (d : ℚ) : ℚ :=
match propGet n k with
| some (.num q) => if q = 0 then d else q
| _ => d

/-- `findVulnerabilities`: low-confidence nodes and single-connection
nodes. -/
def findVulnerabilities (nodes : List ProofNode) (edges : List ProofHyperedge) :
    List String :=
(nodes.filter (fun n => propNumOr n "confidence" 1 < mkRat 5 10)).map (fun n => n.id) ++
(nodes.filter (fun n =>
  (edges.filter (fun e => e.nodes.contains n.id)).length = 1)).map (fun n => n.id)

/-- `findOpportunities`: high-confidence nodes and enhancement edges. -/
def findOpportunities (nodes : List ProofNode) (edges : List ProofHyperedge) :
    List String :=
(nodes.filter (fun n => propNumOr n "confidence" 0 > mkRat 8 10)).map
  (fun n => "leverage_" ++ n.id) ++
(edges.filter (fun e => e.type = .enhancement)).map (fun e => "synergy_" ++ e.id)

/-- `analyzeHypergraph`. -/
def analyzeHypergraph (nodes : List ProofNode) (edges : List ProofHyperedge) :
    HypergraphAnalysis :=
{ connectivity := calculateConnectivity nodes edges
  clustering := calculateClustering nodes edges
  criticalPaths := findCriticalPaths nodes edges
  vulnerabilities := findVulnerabilities nodes edges
  opportunities := findOpportunities nodes edges }

/-- `createProofHypergraph` (the stored graph for a proof id). -/
def createProofHypergraph (now : Nat) (steps : List ProofStep)
    (ingredients : List ExistingIngredient)
    (interactions : List IngredientInteraction) : ProofHypergraph :=
let nodes := createProofNodes steps ingredients
let hyperedges := createProofHyperedges now steps interactions
{ nodes := nodes, hyperedges := hyperedges,
  analysis := analyzeHypergraph nodes hyperedges }

/-- `createVesselNodes`. -/
def createVesselNodes (vesselData : VesselData) : List ProofNode :=
vesselData.ingredients.map (fun ing =>
  { id := "vessel_ingredient_" ++ ing.id
    type := NodeType.ingredient
    properties :=
      [("label", .str ing.label), ("category", .str ing.category),
       ("safety_rating", .str ing.safety_rating), ("pricing_zar", .num ing.pricing_zar),
       ("source", .str "vessel_database")]
    relevanceScore := calculateIngredientRelevance ing }) ++
vesselData.products.map (fun product =>
  { id := "vessel_product_" ++ product.id
    type := NodeType.effect
    properties :=
      [("label", .str product.label), ("category", .str product.category),
       ("complexity_score", .num product.complexity_score),
       ("target_skin_type", .str product.target_skin_type),
       ("benefits", .str (String.intercalate ", " product.benefits)),
       ("source", .str "vessel_database")]
    relevanceScore := qdiv product.complexity_score 100 })

/-- `createVesselEdges`: synergy (enhancement) and avoid (inhibition) edges
from the compatibility lists of every vessel ingredient. -/
def createVesselEdges (now : Nat) (vesselData : VesselData) : List ProofHyperedge :=
vesselData.ingredients.flatMap (fun ing =>
  ing.compatibility.synergistic.map (fun synIngredient =>
    { id := "vessel_synergy_" ++ ing.id ++ "_" ++ synIngredient
      nodes := ["vessel_ingredient_" ++ ing.id, "vessel_ingredient_" ++ synIngredient]
      type := EdgeType.enhancement
      weight := mkRat 8 10
      confidence := mkRat 8 10
      evidence := [{ id := "vessel_synergy_evidence_" ++ toString now
                     type := EvidenceType.experimental
                     source := "vessel_compatibility_database"
                     reliability := mkRat 8 10
                     relevance := mkRat 9 10
                     confidence := mkRat 8 10 }] }) ++
  ing.compatibility.avoid.map (fun avoidIngredient =>
    { id := "vessel_avoid_" ++ ing.id ++ "_" ++ avoidIngredient
      nodes := ["vessel_ingredient_" ++ ing.id, "vessel_ingredient_" ++ avoidIngredient]
      type := EdgeType.inhibition
      weight := mkRat 9 10
      confidence := mkRat 9 10
      evidence := [{ id := "vessel_avoid_evidence_" ++ toString now
                     type := EvidenceType.experimental
                     source := "vessel_incompatibility_database"
                     reliability := mkRat 9 10
                     relevance := 1
                     confidence := mkRat 9 10 }] }))

/-- `mergeNodes`: union by node id, keeping the proof graph's nodes. -/
def mergeNodes (proofNodes vesselNodes : List ProofNode) : List ProofNode :=
proofNodes ++ vesselNodes.filter
  (fun v => ¬ (proofNodes.map (fun n => n.id)).contains v.id)

/-- `mergeHyperedges`: union by edge id, keeping the proof graph's edges. -/
def mergeHyperedges (proofEdges vesselEdges : List ProofHyperedge) :
    List ProofHyperedge :=
proofEdges ++ vesselEdges.filter
  (fun v => ¬ (proofEdges.map (fun e => e.id)).contains v.id)

/-- `integrateWithVesselHypergraph`: the combined graph returned to the
caller.  The engine's stored graph for the proof id is *not* replaced by this
call; subsequent queries through `queryProofSupport` still read the stored
graph. -/
def integrateWithVesselHypergraph (now : Nat) (proofGraph : ProofHypergraph)
    (vesselData : VesselData) : ProofHypergraph :=
let combinedNodes := mergeNodes proofGraph.nodes (createVesselNodes vesselData)
let combinedEdges := mergeHyperedges proofGraph.hyperedges (createVesselEdges now vesselData)
{ nodes := combinedNodes, hyperedges := combinedEdges,
  analysis := analyzeHypergraph combinedNodes combinedEdges }

/-- Result record of the point queries. -/
structure QueryResult where
  supportingNodes : List ProofNode
  supportingEdges : List ProofHyperedge
  confidenceScore : ℚ
  recommendations : List String
deriving DecidableEq

/-- `generateCompatibilityRecommendations`. -/
def generateCompatibilityRecommendations (edges : List ProofHyperedge) : List String :=
(if edges.any (fun e => e.type = .inhibition) then
  ["Consider avoiding this ingredient combination due to potential antagonistic effects"]
else []) ++
(if edges.any (fun e => e.type = .enhancement) then
  ["This ingredient combination shows synergistic potential"]
else []) ++
(if edges.length = 0 then
  ["Limited interaction data available - consider conducting compatibility testing"]
else [])

/-- `queryIngredientCompatibility` on a graph, with the two ingredient-id
parameters of the query. -/
def queryIngredientCompatibility (graph : ProofHypergraph)
    (ingredient1 ingredient2 : String) : QueryResult :=
let supportingEdges := graph.hyperedges.filter
  (fun edge =>
    (edge.nodes.contains ingredient1 ∧ edge.nodes.contains ingredient2) ∨
    (edge.nodes.contains ("ingredient_" ++ ingredient1) ∧
      edge.nodes.contains ("ingredient_" ++ ingredient2)))
let supportingNodes := graph.nodes.filter
  (fun node => supportingEdges.any (fun edge => edge.nodes.contains node.id))
let confidenceScore :=
  if supportingEdges.length > 0 then
    qdiv (supportingEdges.foldl (fun acc e => qadd acc e.confidence) 0)
      (supportingEdges.length : ℚ)
  else mkRat 5 10
{ supportingNodes := supportingNodes
  supportingEdges := supportingEdges
  confidenceScore := confidenceScore
  recommendations := generateCompatibilityRecommendations supportingEdges }

end Graph

/-! ### Spec-side definitions and concrete scenario inputs -/

/-- Proof completeness as the specification's words state it: required
step-type categories `{assumption, verification, conclusion}`, plus
`deduction` when the request has target effects, counted over the proof's
steps and divided by the required-category count. -/
def specCompletenessClaimed (steps : List ProofStep)
    (request : VerificationRequest) : ℚ :=
if request.targetEffects = [] then
  qdiv (((if steps.any (fun s => s.type = .assumption) then 1 else 0) +
      (if steps.any (fun s => s.type = .verification) then 1 else 0) +
      (if steps.any (fun s => s.type = .conclusion) then 1 else 0) : Nat) : ℚ) 3
else
  qdiv (((if steps.any (fun s => s.type = .assumption) then 1 else 0) +
      (if steps.any (fun s => s.type = .verification) then 1 else 0) +
      (if steps.any (fun s => s.type = .conclusion) then 1 else 0) +
      (if steps.any (fun s => s.type = .deduction) then 1 else 0) : Nat) : ℚ) 4

/-- Proof completeness as the amended claim states it: required categories
`{assumption, verification}`, plus `deduction` when the request has target
effects; `conclusion` is not required. -/
def specCompletenessAmended (steps : List ProofStep)
    (request : VerificationRequest) : ℚ :=
if request.targetEffects = [] then
  qdiv (((if steps.any (fun s => s.type = .assumption) then 1 else 0) +
      (if steps.any (fun s => s.type = .verification) then 1 else 0) : Nat) : ℚ) 2
else
  qdiv (((if steps.any (fun s => s.type = .assumption) then 1 else 0) +
      (if steps.any (fun s => s.type = .verification) then 1 else 0) +
      (if steps.any (fun s => s.type = .deduction) then 1 else 0) : Nat) : ℚ) 3

/-- The engine's default three-layer skin model (`createDefaultSkinModel`). -/
def defaultSkinModel : SkinModel :=
{ layers :=
    [{ id := "stratum_corneum", name := "Stratum Corneum", depth := 15,
       cellTypes := ["corneocytes"], permeability := mkRat 1 10, ph := mkRat 55 10,
       functions := ["barrier", "protection"] },
     { id := "epidermis", name := "Epidermis", depth := 100,
       cellTypes := ["keratinocytes", "melanocytes"], permeability := mkRat 3 10,
       ph := mkRat 65 10, functions := ["renewal", "pigmentation"] },
     { id := "dermis", name := "Dermis", depth := 2000,
       cellTypes := ["fibroblasts", "endothelial"], permeability := mkRat 7 10,
       ph := mkRat 72 10, functions := ["structure", "nutrition"] }]
  barriers :=
    [{ id := "lipid_barrier", location := "stratum_corneum", type := "lipid",
       strength := mkRat 9 10, selectivity := ["lipophilic"] }]
  transport :=
    [{ id := "passive_diffusion", type := "passive", pathway := "transcellular",
       efficiency := mkRat 6 10, molecularWeightLimit := 500 }] }

/-- The single ingredient of the hydration scenario. -/
def hyaluronicIngredient : SimpleIngredient := { id := "R1", label := "Hyaluronic Acid" }

/-- The single target effect of the hydration scenario. -/
def hydrationEffect : IngredientEffect :=
{ ingredientId := "R1", targetLayer := "epidermis", effectType := "hydration",
  magnitude := 1, timeframe := 60, confidence := mkRat 8 10,
  mechanismOfAction := "barrier" }

/-- The hydration scenario request: hypothesis
"Hyaluronic acid improves hydration", one ingredient, one target effect and
no constraints. -/
def hydrationRequest : VerificationRequest :=
{ hypothesis := "Hyaluronic acid improves hydration"
  ingredients := [hyaluronicIngredient]
  targetEffects := [hydrationEffect]
  constraints := []
  skinModel := defaultSkinModel }

/-- A request with an empty ingredient list (for the invalid-request
behaviour). -/
def emptyIngredientsRequest : VerificationRequest :=
{ hypothesis := "some hypothesis"
  ingredients := []
  targetEffects := []
  constraints := []
  skinModel := defaultSkinModel }

/-- An assumption step connected to a conclusion step, for the hypergraph
analysis evaluation. -/
def bugAssumptionStep : ProofStep :=
{ id := "A", type := .assumption, statement := "base assumption",
  premises := [], rule := "initial_hypothesis", confidence := 1, evidence := [] }

/-- The conclusion step whose premise is the assumption step above. -/
def bugConclusionStep : ProofStep :=
{ id := "C", type := .conclusion, statement := "final conclusion",
  premises := ["A"], rule := "logical_synthesis", confidence := 1, evidence := [] }

/-- Step list holding one assumption and one conclusion step connected by a
dependency hyperedge. -/
def bugProofSteps : List ProofStep := [bugAssumptionStep, bugConclusionStep]

/-- A vessel ingredient whose external compatibility data declares an
"avoid" relation against ingredient `B`. -/
def avoidIngredientA : Graph.ExistingIngredient :=
{ id := "A", label := "Ingredient A", inci_name := "Inci A", category := "active",
  molecular_weight := "100", solubility := "water", functions := ["hydration"],
  compatibility := { synergistic := [], avoid := ["B"], neutral := [] },
  safety_rating := "high", pricing_zar := 100 }

/-- The avoided partner ingredient `B`, with no compatibility data of its
own. -/
def avoidIngredientB : Graph.ExistingIngredient :=
{ id := "B", label := "Ingredient B", inci_name := "Inci B", category := "active",
  molecular_weight := "200", solubility := "oil", functions := ["barrier"],
  compatibility := { synergistic := [], avoid := [], neutral := [] },
  safety_rating := "medium", pricing_zar := 50 }

/-- Vessel data bundle declaring the avoid relation between `A` and `B`. -/
def avoidVesselData : Graph.VesselData :=
{ ingredients := [avoidIngredientA, avoidIngredientB], products := [] }

/-- The stored proof hypergraph of an empty proof. -/
def emptyProofGraph : Graph.ProofHypergraph :=
Graph.createProofHypergraph 0 [] [] []

/-- The avoid-warning recommendation string issued by
`generateCompatibilityRecommendations` for inhibition edges. -/
def avoidWarning : String :=
"Consider avoiding this ingredient combination due to potential antagonistic effects"

/-- A relevance context whose active-ingredient list repeats one ingredient
id ten times, with a goal mentioning it. -/
def dupContext : RelevanceContext :=
{ currentGoal := "a"
  activeIngredients := ["a", "a", "a", "a", "a", "a", "a", "a", "a", "a"]
  skinCondition := ""
  userConstraints := []
  environmentalFactors := [] }

/-- A relevance context with a duplicate-free ingredient list. -/
def nodupContext : RelevanceContext :=
{ currentGoal := "use a"
  activeIngredients := ["a"]
  skinCondition := "dry"
  userConstraints := []
  environmentalFactors := [] }

/-- A scalar concentration field holding the single value 0. -/
noncomputable def zeroConcField : Tensor.TensorField :=
{ dimensions := [1], data := [0], units := "mg/ml", description := "zero concentration" }

/-- A scalar concentration field holding the single value 1. -/
noncomputable def unitConcField : Tensor.TensorField :=
{ dimensions := [1], data := [1], units := "mg/ml", description := "unit concentration" }

/-- A concrete 1-D concentration field of length 5. -/
noncomputable def concField5 : Tensor.TensorField :=
{ dimensions := [5], data := [1, 2, 4, 8, 16], units := "mg/ml",
  description := "1-D concentration field" }

/-- A scalar diffusivity field. -/
noncomputable def diffusivityField : Tensor.TensorField :=
{ dimensions := [1], data := [1 / 2], units := "cm2/s", description := "diffusivity" }

/-- A scalar time field. -/
noncomputable def timeField : Tensor.TensorField :=
{ dimensions := [1], data := [1 / 4], units := "seconds", description := "time" }

/-- Closed-form penetration depth as the specification states it:
`100·exp(−MW/1000)·clip(logP, 0.1, 2.0)·min(2.0, ln(conc + 1))`. -/
noncomputable def specPenetrationDepth (mw logP conc : ℝ) : ℝ :=
100 * Real.exp (-mw / 1000) * min 2 (max (1 / 10) logP) * min 2 (Real.log (conc + 1))


/-! ## Theorems -/

/-! ### Arithmetic and sorting helper lemmas -/

theorem qadd_eq (a b : ℚ) : qadd a b = a + b := by
  conv_rhs => rw [← Rat.num_div_den a, ← Rat.num_div_den b]
  have ha : ((a.den : ℚ)) ≠ 0 := by
    exact_mod_cast a.den_pos.ne'
  have hb : ((b.den : ℚ)) ≠ 0 := by
    exact_mod_cast b.den_pos.ne'
  rw [qadd, Rat.mkRat_eq_div]
  push_cast
  field_simp

theorem qmul_eq (a b : ℚ) : qmul a b = a * b := by
  conv_rhs => rw [← Rat.num_div_den a, ← Rat.num_div_den b]
  have ha : ((a.den : ℚ)) ≠ 0 := by
    exact_mod_cast a.den_pos.ne'
  have hb : ((b.den : ℚ)) ≠ 0 := by
    exact_mod_cast b.den_pos.ne'
  rw [qmul, Rat.mkRat_eq_div]
  push_cast
  field_simp

theorem qneg_eq (a : ℚ) : qneg a = -a := by
  conv_rhs => rw [← Rat.num_div_den a]
  have ha : ((a.den : ℚ)) ≠ 0 := by
    exact_mod_cast a.den_pos.ne'
  rw [qneg, Rat.mkRat_eq_div]
  push_cast
  field_simp

theorem qsub_eq (a b : ℚ) : qsub a b = a - b := by
  rw [qsub, qadd_eq, qneg_eq, sub_eq_add_neg]

theorem qinv_eq (b : ℚ) : qinv b = b⁻¹ := by
  show qinv b = b.inv
  rw [Rat.inv_def, qinv]
  by_cases hneg : b.num < 0
  · rw [if_pos hneg, Rat.mkRat_eq_divInt, Int.ofNat_natAbs_of_nonpos hneg.le,
      Rat.divInt_neg, neg_neg]
  · rw [if_neg hneg, Rat.mkRat_eq_divInt, Int.natAbs_of_nonneg (not_lt.mp hneg)]

theorem qdiv_eq (a b : ℚ) : qdiv a b = a / b := by
  rw [qdiv, qmul_eq, qinv_eq, div_eq_mul_inv]

theorem length_insDescBy {α : Type} (f : α → ℚ) (x : α) (l : List α) :
    (insDescBy f x l).length = l.length + 1 := by
  induction l with
  | nil => rfl
  | cons y ys ih =>
    rw [insDescBy]
    by_cases h : f y < f x
    · rw [if_pos h]
      rfl
    · rw [if_neg h, List.length_cons, ih, List.length_cons]

theorem length_sortDescBy {α : Type} (f : α → ℚ) (l : List α) :
    (sortDescBy f l).length = l.length := by
  suffices h : ∀ acc : List α,
      (l.foldl (fun acc x => insDescBy f x acc) acc).length = acc.length + l.length by
    simpa using h []
  induction l with
  | nil => intro acc; simp
  | cons y ys ih =>
    intro acc
    rw [List.foldl_cons, ih, length_insDescBy, List.length_cons]
    omega

/-! ### Attention capacity (claim C7) -/

theorem attentionalFocus_le (capacity : Nat) (ctx : RelevanceContext)
    (weights : List (String × ℚ)) :
    (Cognitive.updateAttentionalFocus capacity ctx weights).length ≤ capacity := by
  rw [Cognitive.updateAttentionalFocus]
  calc (List.take capacity _).length ≤ capacity ⊓ _ := le_of_eq (List.length_take _ _)
    _ ≤ capacity := inf_le_left

theorem updateCognitiveState_focus_le (expFn : ℚ → ℚ) (capacity : Nat)
    (decayRate : ℚ) (ctx : RelevanceContext) (now : ℚ) (st : CognitiveState) :
    (Cognitive.updateCognitiveState expFn capacity decayRate ctx now st).attentionalFocus.length ≤
      capacity := by
  rw [Cognitive.updateCognitiveState]
  exact attentionalFocus_le capacity ctx _

/-- Claim C7: after any finite sequence of `updateCognitiveState` calls on a
cognitive accounting system with attention capacity `capacity`, the
attentional focus list has length at most `capacity`.  This holds for every
decay rate and every model of `Math.exp`. -/
theorem claim_C7 (expFn : ℚ → ℚ) (capacity : Nat) (decayRate : ℚ)
    (calls : List (RelevanceContext × ℚ)) :
    (Cognitive.runUpdates expFn capacity decayRate calls).attentionalFocus.length ≤
      capacity := by
  rw [Cognitive.runUpdates]
  suffices h : ∀ st : CognitiveState, st.attentionalFocus.length ≤ capacity →
      (calls.foldl
        (fun st c => Cognitive.updateCognitiveState expFn capacity decayRate c.1 c.2 st)
        st).attentionalFocus.length ≤ capacity by
    exact h initializeCognitiveState (Nat.zero_le capacity)
  induction calls with
  | nil => intro st hst; exact hst
  | cons c cs ih =>
    intro st _
    rw [List.foldl_cons]
    exact ih _ (updateCognitiveState_focus_le expFn capacity decayRate c.1 c.2 st)

/-! ### Diffusion boundary behaviour (claim C9) -/

theorem getD_range_map (n : Nat) (f : Nat → ℝ) (i : Nat) (h : i < n) :
    (((List.range n).map f).getD i 0) = f i := by
  rw [List.getD_eq_getElem?_getD, List.getElem?_map, List.getElem?_range h]
  rfl

/-- Claim C9: one application of the diffusion operation to a 1-D
concentration field of length 5 leaves the two boundary values unchanged,
and updates exactly the three interior points by the explicit
finite-difference Laplacian step `D·dt·(c[i+1] − 2c[i] + c[i−1])`. -/
theorem claim_C9 (c d t : Tensor.TensorField) (v0 v1 v2 v3 v4 : ℝ)
    (hdim : c.dimensions = [5]) (hdata : c.data = [v0, v1, v2, v3, v4]) :
    (Tensor.diffusionOperation c d t).data =
      [v0,
       v1 + d.data.getD 0 0 * t.data.getD 0 0 * (v2 - 2 * v1 + v0),
       v2 + d.data.getD 0 0 * t.data.getD 0 0 * (v3 - 2 * v2 + v1),
       v3 + d.data.getD 0 0 * t.data.getD 0 0 * (v4 - 2 * v3 + v2),
       v4] := by
  rw [Tensor.diffusionOperation]
  simp only [hdim, hdata, List.length_cons, List.length_nil, List.length_singleton]
  norm_num [Tensor.diffuse1D, List.range_succ, List.getD]

/-- Witness for claim C9 at the concrete field `[1, 2, 4, 8, 16]` with
diffusivity 1/2 and time step 1/4. -/
theorem claim_C9_witness :
    concField5.dimensions = [5] ∧ concField5.data = [1, 2, 4, 8, 16] ∧
    (Tensor.diffusionOperation concField5 diffusivityField timeField).data =
      [1,
       2 + diffusivityField.data.getD 0 0 * timeField.data.getD 0 0 * (4 - 2 * 2 + 1),
       4 + diffusivityField.data.getD 0 0 * timeField.data.getD 0 0 * (8 - 2 * 4 + 2),
       8 + diffusivityField.data.getD 0 0 * timeField.data.getD 0 0 * (16 - 2 * 8 + 4),
       16] :=
⟨rfl, rfl, claim_C9 concField5 diffusivityField timeField 1 2 4 8 16 rfl rfl⟩

/-! ### Ingredient interaction coefficients (claim C8) -/

theorem interaction_data_getD (f g i : Tensor.TensorField) (k : Nat)
    (hk : k < f.data.length) :
    (Tensor.ingredientInteractionOperation f g i).data.getD k 0 =
      f.data.getD k 0 * g.data.getD k 0 * i.data.getD 0 0 := by
  rw [Tensor.ingredientInteractionOperation]
  exact getD_range_map _ _ k hk

/-- Claim C8, counterexample: on the zero concentration field the
synergistic and antagonistic interaction results coincide (both are 0), so
the synergistic result does not exceed the antagonistic one for every pair
of concentration fields. -/
theorem claim_C8_counterexample :
    (Tensor.ingredientInteractionOperation zeroConcField zeroConcField
        (Tensor.createInteractionField "synergistic")).data =
      (Tensor.ingredientInteractionOperation zeroConcField zeroConcField
        (Tensor.createInteractionField "antagonistic")).data ∧
    ¬ ((Tensor.ingredientInteractionOperation zeroConcField zeroConcField
        (Tensor.createInteractionField "antagonistic")).data.getD 0 0 <
      (Tensor.ingredientInteractionOperation zeroConcField zeroConcField
        (Tensor.createInteractionField "synergistic")).data.getD 0 0) := by
  constructor
  · norm_num [Tensor.ingredientInteractionOperation, zeroConcField, List.range_succ,
      List.range_zero, List.getD]
  · rw [interaction_data_getD _ _ _ 0 (by norm_num [zeroConcField]),
      interaction_data_getD _ _ _ 0 (by norm_num [zeroConcField])]
    norm_num [zeroConcField, List.getD]

/-- Claim C8, amended: at every index where the product of the two base
concentrations is positive, the synergistic interaction result (coefficient
1.2) strictly exceeds the antagonistic one (coefficient 0.8). -/
theorem claim_C8_amended (f g : Tensor.TensorField) (k : Nat)
    (hk : k < f.data.length)
    (hpos : 0 < f.data.getD k 0 * g.data.getD k 0) :
    (Tensor.ingredientInteractionOperation f g
        (Tensor.createInteractionField "antagonistic")).data.getD k 0 <
      (Tensor.ingredientInteractionOperation f g
        (Tensor.createInteractionField "synergistic")).data.getD k 0 := by
  rw [interaction_data_getD _ _ _ k hk, interaction_data_getD _ _ _ k hk]
  have hs : (Tensor.createInteractionField "synergistic").data.getD 0 0 = 12 / 10 := by
    norm_num [Tensor.createInteractionField, Tensor.createScalarField, List.getD]
  have ha : (Tensor.createInteractionField "antagonistic").data.getD 0 0 = 8 / 10 := by
    norm_num [Tensor.createInteractionField, Tensor.createScalarField, List.getD]
    decide
  rw [hs, ha]
  nlinarith [hpos]

/-- Witness for claim C8 at the unit concentration fields. -/
theorem claim_C8_witness :
    0 < unitConcField.data.length ∧
    0 < unitConcField.data.getD 0 0 * unitConcField.data.getD 0 0 ∧
    (Tensor.ingredientInteractionOperation unitConcField unitConcField
        (Tensor.createInteractionField "antagonistic")).data.getD 0 0 <
      (Tensor.ingredientInteractionOperation unitConcField unitConcField
        (Tensor.createInteractionField "synergistic")).data.getD 0 0 :=
⟨by norm_num [unitConcField], by norm_num [unitConcField, List.getD],
  claim_C8_amended unitConcField unitConcField 0 (by norm_num [unitConcField])
    (by norm_num [unitConcField, List.getD])⟩

/-! ### Penetration depth (claim C4) -/

open Classical in
theorem executeOperation_penetration (mw lp conc : Tensor.TensorField) :
    Tensor.executeOperation "penetration_depth" [mw, lp, conc] =
      if Tensor.validPositiveField (Tensor.penetrationDepthOperation mw lp conc)
      then Except.ok (Tensor.penetrationDepthOperation mw lp conc)
      else Except.error "Operation penetration_depth produced invalid result" := rfl

theorem penetrationDepthOperation_eq (mw logP conc : ℝ) :
    Tensor.penetrationDepthOperation
        (Tensor.createScalarField mw "daltons" "Molecular weight")
        (Tensor.createScalarField logP "unitless" "Partition coefficient")
        (Tensor.createScalarField conc "mg/ml" "Concentration") =
      Tensor.createScalarField (specPenetrationDepth mw logP conc)
        "micrometers" "Calculated penetration depth" := by
  rw [Tensor.penetrationDepthOperation, specPenetrationDepth]
  norm_num [Tensor.createScalarField, List.getD]

/-- Claim C4, counterexample: at concentration 0 the computed depth is 0, the
positivity validator of the `penetration_depth` operation rejects it, and
`calculatePenetrationDepth` raises an error instead of returning a scalar
field, so the claim does not hold for every concentration. -/
theorem claim_C4_counterexample :
    Tensor.calculatePenetrationDepth 5000 1 0 =
      Except.error "Operation penetration_depth produced invalid result" := by
  have hdata : Tensor.penetrationDepthOperation
      (Tensor.createScalarField 5000 "daltons" "Molecular weight")
      (Tensor.createScalarField 1 "unitless" "Partition coefficient")
      (Tensor.createScalarField 0 "mg/ml" "Concentration") =
      Tensor.createScalarField 0 "micrometers" "Calculated penetration depth" := by
    rw [penetrationDepthOperation_eq, specPenetrationDepth]
    norm_num [Real.log_one]
  have hneg : ¬ Tensor.validPositiveField
      (Tensor.createScalarField (0 : ℝ) "micrometers" "Calculated penetration depth") := by
    rintro ⟨-, hall⟩
    exact lt_irrefl 0 (hall 0 (by simp [Tensor.createScalarField]))
  rw [Tensor.calculatePenetrationDepth, executeOperation_penetration, hdata, if_neg hneg]

/-- Claim C4, amended: for every molecular weight and logP and every
*positive* concentration, `calculatePenetrationDepth` returns the scalar
tensor field whose single value is exactly the closed form
`100·exp(−MW/1000)·clip(logP, 0.1, 2.0)·min(2.0, ln(conc + 1))`; in the exact
real model repeated calls agree identically, hence within any tolerance. -/
theorem claim_C4_amended (mw logP conc : ℝ) (h : 0 < conc) :
    Tensor.calculatePenetrationDepth mw logP conc =
      Except.ok (Tensor.createScalarField (specPenetrationDepth mw logP conc)
        "micrometers" "Calculated penetration depth") := by
  have hpos : (0 : ℝ) < specPenetrationDepth mw logP conc := by
    have h1 : (0 : ℝ) < Real.exp (-mw / 1000) := Real.exp_pos _
    have h2 : (0 : ℝ) < min 2 (max (1 / 10) logP) :=
      lt_min (by norm_num) (lt_of_lt_of_le (by norm_num) (le_max_left _ _))
    have h3 : (0 : ℝ) < min 2 (Real.log (conc + 1)) :=
      lt_min (by norm_num) (Real.log_pos (by linarith))
    have h100 : (0 : ℝ) < 100 := by norm_num
    exact mul_pos (mul_pos (mul_pos h100 h1) h2) h3
  have hval : Tensor.validPositiveField
      (Tensor.createScalarField (specPenetrationDepth mw logP conc)
        "micrometers" "Calculated penetration depth") := by
    refine ⟨⟨by norm_num [Tensor.createScalarField], by norm_num [Tensor.createScalarField]⟩, ?_⟩
    intro x hx
    have hx' : x = specPenetrationDepth mw logP conc := by
      simpa [Tensor.createScalarField] using hx
    rw [hx']
    exact hpos
  rw [Tensor.calculatePenetrationDepth, executeOperation_penetration,
    penetrationDepthOperation_eq, if_pos hval]

/-- Witness for claim C4 at molecular weight 5000, logP 1 and
concentration 1. -/
theorem claim_C4_witness :
    (0 : ℝ) < 1 ∧
    Tensor.calculatePenetrationDepth 5000 1 1 =
      Except.ok (Tensor.createScalarField (specPenetrationDepth 5000 1 1)
        "micrometers" "Calculated penetration depth") :=
⟨by norm_num, claim_C4_amended 5000 1 1 (by norm_num)⟩

/-! ### Proof completeness (claim C2) -/

theorem contains_step_type (l : List ProofStep) (t : StepType) :
    (l.map (fun s => s.type.str)).contains t.str = l.any (fun s => s.type = t) := by
  induction l with
  | nil => rfl
  | cons s l ih =>
    rw [List.map_cons, List.contains_cons, List.any_cons, ih]
    congr 1
    cases s.type <;> cases t <;> decide

theorem contains_assumption_str (l : List ProofStep) :
    (l.map (fun s => s.type.str)).contains "assumption" =
      l.any (fun s => s.type = .assumption) :=
contains_step_type l .assumption

theorem contains_verification_str (l : List ProofStep) :
    (l.map (fun s => s.type.str)).contains "verification" =
      l.any (fun s => s.type = .verification) :=
contains_step_type l .verification

theorem contains_deduction_str (l : List ProofStep) :
    (l.map (fun s => s.type.str)).contains "deduction" =
      l.any (fun s => s.type = .deduction) :=
contains_step_type l .deduction

theorem calculateProofCompleteness_eq (l : List ProofStep)
    (req : VerificationRequest) :
    Engine.calculateProofCompleteness l req = specCompletenessAmended l req := by
  rw [Engine.calculateProofCompleteness, specCompletenessAmended]
  by_cases heff : req.targetEffects = []
  · rw [if_pos heff, heff]
    simp only [List.length_nil, ne_eq, not_true_eq_false, if_false, List.append_nil]
    rw [List.filter_cons, List.filter_cons, List.filter_nil,
      contains_assumption_str, contains_verification_str]
    cases hA : l.any (fun s => s.type = .assumption) <;>
      cases hV : l.any (fun s => s.type = .verification) <;>
      simp
  · rw [if_neg heff]
    have hlen : req.targetEffects.length ≠ 0 := by
      simpa [List.length_eq_zero] using heff
    rw [if_pos hlen]
    simp only [List.cons_append, List.nil_append]
    rw [List.filter_cons, List.filter_cons, List.filter_cons, List.filter_nil,
      contains_assumption_str, contains_verification_str, contains_deduction_str]
    cases hA : l.any (fun s => s.type = .assumption) <;>
      cases hV : l.any (fun s => s.type = .verification) <;>
      cases hD : l.any (fun s => s.type = .deduction) <;>
      simp

/-- Claim C2, amended: for every proof assembled by the orchestrator's
`buildFormalProof`, the completeness equals the number of step-type
categories present among `{assumption, verification}` — plus `{deduction}`
as a third required category when the request has target effects — divided
by the number of required categories.  (`conclusion` is not a required
category in the code.) -/
theorem claim_C2_amended (now : Nat) (steps : List ProofStep)
    (req : VerificationRequest) :
    (Engine.buildFormalProof now steps req).completeness =
      specCompletenessAmended (Engine.buildFormalProof now steps req).steps req := by
  rw [Engine.buildFormalProof]
  exact calculateProofCompleteness_eq _ _

/-- Claim C2, counterexample: on the hydration scenario the orchestrator
assembles a proof with steps `{assumption, conclusion}`; the code computes
completeness 1/3 (present categories {assumption} of required
{assumption, verification, deduction}), while the claimed formula — which
also counts `conclusion` as a required category — gives 2/4. -/
theorem claim_C2_counterexample :
    (Engine.verifyFormulationHypothesis 0 initializeCognitiveState
        hydrationRequest).proof.completeness ≠
      specCompletenessClaimed
        (Engine.verifyFormulationHypothesis 0 initializeCognitiveState
          hydrationRequest).proof.steps hydrationRequest := by
  decide

/-! ### Invalid requests (claim C6) -/

theorem validateRequest_ok (req req' : VerificationRequest)
    (hok : Engine.validateRequest req = .ok req') :
    req.hypothesis ≠ "" ∧ req.ingredients ≠ [] ∧
    (∀ ing ∈ req.ingredients, ing.id ≠ "" ∧ ing.label ≠ "") ∧
    (∀ c ∈ req.constraints, c.type ≠ "" ∧ c.parameter ≠ "") := by
  rw [Engine.validateRequest] at hok
  by_cases h1 : req.hypothesis = "" ∨ req.ingredients = []
  · rw [if_pos h1] at hok
    exact absurd hok (by simp)
  · rw [if_neg h1] at hok
    push_neg at h1
    rcases hfind : req.ingredients.find? (fun ing => ing.id == "" || ing.label == "")
        with _ | ing
    · rcases hfind2 : req.constraints.find? (fun c => c.type == "" || c.parameter == "")
          with _ | c
      · refine ⟨h1.1, h1.2, ?_, ?_⟩
        · intro ing hmem
          have hni := List.find?_eq_none.mp hfind ing hmem
          constructor
          · intro hc; exact hni (by simp [hc])
          · intro hc; exact hni (by simp [hc])
        · intro c hmem
          have hnc := List.find?_eq_none.mp hfind2 c hmem
          constructor
          · intro hc; exact hnc (by simp [hc])
          · intro hc; exact hnc (by simp [hc])
      · rw [hfind, hfind2] at hok
        exact absurd hok (by simp)
    · rw [hfind] at hok
      exact absurd hok (by simp)

/-- Claim C6: for every request whose ingredient list is empty, or whose
hypothesis is empty, or containing an ingredient lacking id or label, or a
constraint lacking type or parameter, `verifyFormulationHypothesis` is
exactly the failure result — no downstream stage contributes — with
`isValid = false`, confidence 0, an empty proof step list and a warning
describing the failure. -/
theorem claim_C6 (now : Nat) (cog : CognitiveState) (req : VerificationRequest)
    (h : req.ingredients = [] ∨ req.hypothesis = "" ∨
      (∃ ing ∈ req.ingredients, ing.id = "" ∨ ing.label = "") ∨
      (∃ c ∈ req.constraints, c.type = "" ∨ c.parameter = "")) :
    ∃ msg,
      Engine.validateRequest req = .error msg ∧
      Engine.verifyFormulationHypothesis now cog req =
        Engine.createFailureResult now req.hypothesis msg ∧
      (Engine.verifyFormulationHypothesis now cog req).isValid = false ∧
      (Engine.verifyFormulationHypothesis now cog req).confidence = 0 ∧
      (Engine.verifyFormulationHypothesis now cog req).proof.steps = [] ∧
      (Engine.verifyFormulationHypothesis now cog req).warnings =
        ["Verification failed: " ++ msg] := by
  rcases hval : Engine.validateRequest req with msg | req'
  · have hrun : Engine.verifyFormulationHypothesis now cog req =
        Engine.createFailureResult now req.hypothesis msg := by
      rw [Engine.verifyFormulationHypothesis, hval]
    refine ⟨msg, rfl, hrun, ?_, ?_, ?_, ?_⟩ <;> rw [hrun] <;> rfl
  · exfalso
    obtain ⟨hhyp, hing, hingOk, hconOk⟩ := validateRequest_ok req req' hval
    rcases h with h' | h' | ⟨ing, hmem, hbad⟩ | ⟨c, hmem, hbad⟩
    · exact hing h'
    · exact hhyp h'
    · rcases hbad with h' | h'
      · exact (hingOk ing hmem).1 h'
      · exact (hingOk ing hmem).2 h'
    · rcases hbad with h' | h'
      · exact (hconOk c hmem).1 h'
      · exact (hconOk c hmem).2 h'

/-- Witness for claim C6 at a concrete request with an empty ingredient
list. -/
theorem claim_C6_witness :
    emptyIngredientsRequest.ingredients = [] ∧
    (∃ msg,
      Engine.validateRequest emptyIngredientsRequest = .error msg ∧
      Engine.verifyFormulationHypothesis 0 initializeCognitiveState
          emptyIngredientsRequest =
        Engine.createFailureResult 0 emptyIngredientsRequest.hypothesis msg ∧
      (Engine.verifyFormulationHypothesis 0 initializeCognitiveState
          emptyIngredientsRequest).isValid = false ∧
      (Engine.verifyFormulationHypothesis 0 initializeCognitiveState
          emptyIngredientsRequest).confidence = 0 ∧
      (Engine.verifyFormulationHypothesis 0 initializeCognitiveState
          emptyIngredientsRequest).proof.steps = [] ∧
      (Engine.verifyFormulationHypothesis 0 initializeCognitiveState
          emptyIngredientsRequest).warnings = ["Verification failed: " ++ msg]) :=
⟨rfl, claim_C6 0 initializeCognitiveState emptyIngredientsRequest (Or.inl rfl)⟩

/-! ### Ingredient compatibility queries (claim C5) -/

/-- Claim C5, amended: when the external vessel data declares an "avoid"
relation from ingredient `a` to `avoidId`, the `ingredient_compatibility`
query evaluated on the *combined* graph returned by the integration — with
the vessel node ids `vessel_ingredient_<id>` as the two query parameters —
returns a recommendation warning against combining them (the inhibition-edge
warning).  The freshness hypothesis rules out a stored proof edge reusing
the vessel edge id. -/
theorem claim_C5_amended (now : Nat) (g : Graph.ProofHypergraph)
    (vd : Graph.VesselData) (a : Graph.ExistingIngredient) (avoidId : String)
    (hA : a ∈ vd.ingredients) (hAvoid : avoidId ∈ a.compatibility.avoid)
    (hFresh : ("vessel_avoid_" ++ a.id ++ "_" ++ avoidId) ∉
      g.hyperedges.map (fun e => e.id)) :
    avoidWarning ∈
      (Graph.queryIngredientCompatibility
        (Graph.integrateWithVesselHypergraph now g vd)
        ("vessel_ingredient_" ++ a.id) ("vessel_ingredient_" ++ avoidId)).recommendations := by
  have he1 :
      ({ id := "vessel_avoid_" ++ a.id ++ "_" ++ avoidId
         nodes := ["vessel_ingredient_" ++ a.id, "vessel_ingredient_" ++ avoidId]
         type := Graph.EdgeType.inhibition
         weight := mkRat 9 10
         confidence := mkRat 9 10
         evidence := [{ id := "vessel_avoid_evidence_" ++ toString now
                        type := EvidenceType.experimental
                        source := "vessel_incompatibility_database"
                        reliability := mkRat 9 10
                        relevance := 1
                        confidence := mkRat 9 10 }] } : Graph.ProofHyperedge) ∈
        Graph.createVesselEdges now vd := by
    refine List.mem_flatMap.mpr ⟨a, hA, List.mem_append.mpr (Or.inr ?_)⟩
    exact List.mem_map_of_mem _ hAvoid
  have he2 :
      ({ id := "vessel_avoid_" ++ a.id ++ "_" ++ avoidId
         nodes := ["vessel_ingredient_" ++ a.id, "vessel_ingredient_" ++ avoidId]
         type := Graph.EdgeType.inhibition
         weight := mkRat 9 10
         confidence := mkRat 9 10
         evidence := [{ id := "vessel_avoid_evidence_" ++ toString now
                        type := EvidenceType.experimental
                        source := "vessel_incompatibility_database"
                        reliability := mkRat 9 10
                        relevance := 1
                        confidence := mkRat 9 10 }] } : Graph.ProofHyperedge) ∈
        (Graph.integrateWithVesselHypergraph now g vd).hyperedges := by
    show _ ∈ Graph.mergeHyperedges g.hyperedges (Graph.createVesselEdges now vd)
    rw [Graph.mergeHyperedges]
    refine List.mem_append.mpr (Or.inr (List.mem_filter.mpr ⟨he1, ?_⟩))
    simp only [decide_eq_true_eq]
    intro hc
    exact hFresh (List.elem_iff.mp hc)
  show avoidWarning ∈ Graph.generateCompatibilityRecommendations _
  rw [Graph.generateCompatibilityRecommendations]
  have hany :
      (((Graph.integrateWithVesselHypergraph now g vd).hyperedges).filter
        (fun edge =>
          (edge.nodes.contains ("vessel_ingredient_" ++ a.id) ∧
            edge.nodes.contains ("vessel_ingredient_" ++ avoidId)) ∨
          (edge.nodes.contains ("ingredient_" ++ ("vessel_ingredient_" ++ a.id)) ∧
            edge.nodes.contains
              ("ingredient_" ++ ("vessel_ingredient_" ++ avoidId))))).any
        (fun e => e.type = .inhibition) = true := by
    refine List.any_eq_true.mpr ⟨_, List.mem_filter.mpr ⟨he2, ?_⟩, rfl⟩
    simp only [decide_eq_true_eq]
    refine Or.inl ⟨?_, ?_⟩
    · exact List.elem_iff.mpr (List.mem_cons_self _ _)
    · exact List.elem_iff.mpr (List.mem_cons_of_mem _ (List.mem_cons_self _ _))
  rw [if_pos hany]
  exact List.mem_append.mpr (Or.inl (List.mem_append.mpr (Or.inl (List.mem_singleton.mpr rfl))))

/-- Witness for claim C5 (amended) at the concrete avoid pair `A`/`B` and
the empty stored proof graph. -/
theorem claim_C5_witness :
    avoidIngredientA ∈ avoidVesselData.ingredients ∧
    "B" ∈ avoidIngredientA.compatibility.avoid ∧
    avoidWarning ∈
      (Graph.queryIngredientCompatibility
        (Graph.integrateWithVesselHypergraph 0 emptyProofGraph avoidVesselData)
        ("vessel_ingredient_" ++ avoidIngredientA.id)
        ("vessel_ingredient_" ++ "B")).recommendations :=
⟨by decide, by decide,
  claim_C5_amended 0 emptyProofGraph avoidVesselData avoidIngredientA "B"
    (by decide) (by decide) (by decide)⟩

/-- Claim C5, counterexample: with vessel data declaring an "avoid" relation
between `A` and `B`, integrating it into the (empty) stored proof hypergraph
produces a combined graph that does contain the inhibition edge — but the
`ingredient_compatibility` query with the two ingredient ids `"A"`/`"B"`
reads the *stored* graph (the integration result is never stored), and even
on the combined graph the raw ids do not match the `vessel_ingredient_`
prefixed node ids: in both cases the recommendations contain only the
no-data suggestion and no warning against the combination. -/
theorem claim_C5_counterexample :
    (Graph.integrateWithVesselHypergraph 0 emptyProofGraph
        avoidVesselData).hyperedges.any (fun e => e.type = .inhibition) = true ∧
    (Graph.queryIngredientCompatibility emptyProofGraph "A" "B").recommendations =
      ["Limited interaction data available - consider conducting compatibility testing"] ∧
    (Graph.queryIngredientCompatibility
        (Graph.integrateWithVesselHypergraph 0 emptyProofGraph avoidVesselData)
        "A" "B").recommendations =
      ["Limited interaction data available - consider conducting compatibility testing"] := by
  decide

/-! ### Relevance weight bounds (claim C10) -/

theorem mkRat_nine_fifths : (mkRat 9 5 : ℚ) = 9 / 5 := by
  rw [Rat.mkRat_eq_div]
  norm_num

theorem mkRat_hundredth : (mkRat 1 100 : ℚ) = 1 / 100 := by
  rw [Rat.mkRat_eq_div]
  norm_num

theorem mkRat_fifth : (mkRat 2 10 : ℚ) = 1 / 5 := by
  rw [Rat.mkRat_eq_div]
  norm_num

theorem mkRat_tenth : (mkRat 1 10 : ℚ) = 1 / 10 := by
  rw [Rat.mkRat_eq_div]
  norm_num

theorem mem_mapSet {m : List (String × ℚ)} {k : String} {v : ℚ} {p : String × ℚ}
    (h : p ∈ mapSet m k v) : p = (k, v) ∨ (p ∈ m ∧ p.1 ≠ k) := by
  rw [mapSet] at h
  by_cases hk : m.any (fun p => p.1 == k)
  · rw [if_pos hk] at h
    obtain ⟨q, hq, hpq⟩ := List.mem_map.mp h
    by_cases hq1 : q.1 == k
    · rw [if_pos hq1] at hpq
      exact Or.inl hpq.symm
    · rw [if_neg hq1] at hpq
      refine Or.inr ⟨hpq ▸ hq, ?_⟩
      rw [← hpq]
      exact fun hc => hq1 (by simp [hc])
  · rw [if_neg hk] at h
    rcases List.mem_append.mp h with hmem | hmem
    · refine Or.inr ⟨hmem, fun hc => hk ?_⟩
      exact List.any_eq_true.mpr ⟨p, hmem, by simp [hc]⟩
    · exact Or.inl (List.mem_singleton.mp hmem)

theorem mapGetD_lt {m : List (String × ℚ)} {k : String} {C : ℚ} (hC : 0 < C)
    (h : ∀ p ∈ m, p.1 = k → p.2 < C) : mapGetD m k 0 < C := by
  rw [mapGetD]
  rcases hfind : m.find? (fun p => p.1 == k) with _ | q
  · rw [hfind]
    exact hC
  · rw [hfind]
    have hq := List.find?_some hfind
    exact h q (List.mem_of_find?_eq_some hfind) (by simpa using hq)

theorem bump_fold_bound (goal : String) :
    ∀ l : List String, l.Nodup →
      ∀ m : List (String × ℚ),
        (∀ p ∈ m, (p.1 ∈ l → p.2 < mkRat 9 5) ∧ (p.1 ∉ l → p.2 < 2)) →
        ∀ p ∈ l.foldl (Cognitive.bumpWeight goal) m, p.2 < 2 := by
  intro l
  induction l with
  | nil =>
    intro _ m hm p hp
    exact (hm p hp).2 (List.not_mem_nil _)
  | cons k l ih =>
    intro hnd m hm p hp
    obtain ⟨hk, hl⟩ := List.nodup_cons.mp hnd
    rw [List.foldl_cons] at hp
    refine ih hl (Cognitive.bumpWeight goal m k) ?_ p hp
    intro q hq
    rcases mem_mapSet hq with heq | ⟨hqm, hqk⟩
    · have hold : mapGetD m k 0 < mkRat 9 5 := by
        refine mapGetD_lt (by rw [mkRat_nine_fifths]; norm_num) ?_
        intro r hr hrk
        exact (hm r hr).1 (hrk ▸ List.mem_cons_self k l)
      have hq2 : q.2 < 2 := by
        rw [heq]
        show qadd (mapGetD m k 0) _ < 2
        rw [qadd_eq]
        rw [mkRat_nine_fifths] at hold
        by_cases hg : strIncludesCI goal k
        · rw [if_pos hg, mkRat_fifth]
          linarith
        · rw [if_neg hg, mkRat_tenth]
          linarith
      constructor
      · intro hql
        exact absurd (by rw [heq] at hql; exact hql : k ∈ l) hk
      · intro _
        exact hq2
    · constructor
      · intro hql
        exact (hm q hqm).1 (List.mem_cons_of_mem _ hql)
      · intro hql
        refine (hm q hqm).2 ?_
        rw [List.mem_cons]
        rintro (hc | hc)
        · exact hqk hc
        · exact hql hc

theorem decay_bound (m : List (String × ℚ)) (h2 : ∀ p ∈ m, p.2 < 2) :
    ∀ p ∈ Cognitive.decayWeights (mkRat 1 10) m,
      mkRat 1 100 ≤ p.2 ∧ p.2 < mkRat 9 5 := by
  intro p hp
  rw [Cognitive.decayWeights] at hp
  obtain ⟨hmem, hcond⟩ := List.mem_filter.mp hp
  constructor
  · rw [mkRat_hundredth]
    have := of_decide_eq_true hcond
    rw [mkRat_hundredth] at this
    exact not_lt.mp this
  · obtain ⟨q, hq, hpq⟩ := List.mem_map.mp hmem
    have hq2 := h2 q hq
    rw [← hpq]
    show qmul q.2 (qsub 1 (mkRat 1 10)) < mkRat 9 5
    rw [qmul_eq, qsub_eq, mkRat_tenth, mkRat_nine_fifths]
    nlinarith [hq2]

theorem updateRelevanceWeights_inv (ctx : RelevanceContext)
    (hnd : ctx.activeIngredients.Nodup) (m : List (String × ℚ))
    (hm : ∀ p ∈ m, mkRat 1 100 ≤ p.2 ∧ p.2 < mkRat 9 5) :
    ∀ p ∈ Cognitive.updateRelevanceWeights (mkRat 1 10) ctx m,
      mkRat 1 100 ≤ p.2 ∧ p.2 < mkRat 9 5 := by
  intro p hp
  rw [Cognitive.updateRelevanceWeights] at hp
  refine decay_bound _ ?_ p hp
  refine bump_fold_bound ctx.currentGoal ctx.activeIngredients hnd m ?_
  intro q hq
  have h95 := (hm q hq).2
  rw [mkRat_nine_fifths] at h95
  exact ⟨fun _ => (hm q hq).2, fun _ => by linarith⟩

/-- Claim C10, amended: after any finite sequence of `updateCognitiveState`
calls whose contexts carry duplicate-free active-ingredient lists, every
value in the relevance weight map lies in `[0.01, 1.8)`.  The hypothesis is
necessary: a context repeating one ingredient id can push a weight to 1.8
and beyond (see the counterexample). -/
theorem claim_C10_amended (expFn : ℚ → ℚ) (capacity : Nat)
    (calls : List (RelevanceContext × ℚ))
    (hnd : ∀ c ∈ calls, c.1.activeIngredients.Nodup) :
    ∀ p ∈ (Cognitive.runUpdates expFn capacity (mkRat 1 10) calls).relevanceWeights,
      mkRat 1 100 ≤ p.2 ∧ p.2 < mkRat 9 5 := by
  rw [Cognitive.runUpdates]
  suffices aux : ∀ cs : List (RelevanceContext × ℚ),
      (∀ c ∈ cs, c.1.activeIngredients.Nodup) →
      ∀ st : CognitiveState,
        (∀ p ∈ st.relevanceWeights, mkRat 1 100 ≤ p.2 ∧ p.2 < mkRat 9 5) →
        ∀ p ∈ (cs.foldl
            (fun st c => Cognitive.updateCognitiveState expFn capacity (mkRat 1 10) c.1 c.2 st)
            st).relevanceWeights,
          mkRat 1 100 ≤ p.2 ∧ p.2 < mkRat 9 5 by
    refine aux calls hnd initializeCognitiveState ?_
    intro p hp
    exact absurd hp (List.not_mem_nil p)
  intro cs
  induction cs with
  | nil => exact fun _ st h => h
  | cons c cs ih =>
    intro hnd' st hst
    rw [List.foldl_cons]
    refine ih (fun c' hc' => hnd' c' (List.mem_cons_of_mem _ hc')) _ ?_
    exact updateRelevanceWeights_inv c.1 (hnd' c (List.mem_cons_self c cs))
      st.relevanceWeights hst

/-- Witness for claim C10 (amended) at one update with a duplicate-free
ingredient list. -/
theorem claim_C10_witness :
    (∀ c ∈ [(nodupContext, (0 : ℚ))], c.1.activeIngredients.Nodup) ∧
    ∀ p ∈ (Cognitive.runUpdates (fun _ => 0) 7 (mkRat 1 10)
        [(nodupContext, 0)]).relevanceWeights,
      mkRat 1 100 ≤ p.2 ∧ p.2 < mkRat 9 5 :=
⟨by decide, claim_C10_amended (fun _ => 0) 7 [(nodupContext, 0)] (by decide)⟩

/-- Claim C10, counterexample: one `updateCognitiveState` call whose context
repeats the ingredient id `"a"` ten times (with the goal mentioning it)
leaves the weight of `"a"` at exactly 1.8, outside the claimed interval
`[0.01, 1.8)`. -/
theorem claim_C10_counterexample :
    ∃ p ∈ (Cognitive.runUpdates (fun _ => 0) 7 (mkRat 1 10)
        [(dupContext, 0)]).relevanceWeights,
      ¬ p.2 < mkRat 9 5 := by
  decide

/-! ### Critical paths (claim C3) -/

/-- Claim C3, code evaluation at the failing input: the step list holds an
assumption step `A` and a conclusion step `C`, the proof hypergraph connects
them with a dependency hyperedge, and `findShortestPath` does return the
path `A → C` — yet `analysis.criticalPaths` is empty, because
`findCriticalPaths` filters nodes on a `type` *property* that
`createProofNodes` never sets on step nodes.  The claim (and the code's own
intent) calls for the breadth-first paths from assumption nodes to
conclusion nodes, which here would be non-empty. -/
theorem claim_C3_code_evaluation :
    bugProofSteps.any (fun s => s.type = .assumption) = true ∧
    bugProofSteps.any (fun s => s.type = .conclusion) = true ∧
    (Graph.createProofHypergraph 0 bugProofSteps [] []).hyperedges.any
      (fun e => e.nodes.contains "A" && e.nodes.contains "C") = true ∧
    Graph.findShortestPath (Graph.createProofHypergraph 0 bugProofSteps [] []).nodes
      (Graph.createProofHypergraph 0 bugProofSteps [] []).hyperedges "A" "C" =
      ["A", "C"] ∧
    (Graph.createProofHypergraph 0 bugProofSteps [] []).analysis.criticalPaths = [] := by
  decide

/-! ### The hydration scenario (claim C1) -/

/-- Claim C1, counterexample: on the hydration scenario the pipeline returns
`isValid = true` with confidence 0.8, but the proof contains no verification
and no deduction step — `orderStepsLogically` drops every step whose
premises (`ingredient_R1`, `layer_epidermis`, `skin_model`) are neither
ordered step ids nor substrings of an ordered statement — so the claim's
required step-type coverage fails. -/
theorem claim_C1_counterexample :
    ¬ ((Engine.verifyFormulationHypothesis 0 initializeCognitiveState
          hydrationRequest).isValid = true ∧
       mkRat 5 10 < (Engine.verifyFormulationHypothesis 0 initializeCognitiveState
          hydrationRequest).confidence ∧
       0 < ((Engine.verifyFormulationHypothesis 0 initializeCognitiveState
          hydrationRequest).proof.steps.filter (fun s => s.type = .assumption)).length ∧
       0 < ((Engine.verifyFormulationHypothesis 0 initializeCognitiveState
          hydrationRequest).proof.steps.filter (fun s => s.type = .verification)).length ∧
       0 < ((Engine.verifyFormulationHypothesis 0 initializeCognitiveState
          hydrationRequest).proof.steps.filter (fun s => s.type = .deduction)).length ∧
       0 < ((Engine.verifyFormulationHypothesis 0 initializeCognitiveState
          hydrationRequest).proof.steps.filter (fun s => s.type = .conclusion)).length) := by
  decide

/-- Claim C1, amended: on the hydration scenario
`verifyFormulationHypothesis` returns `isValid = true` and confidence
0.8 > 0.5, and the proof contains an assumption step and a conclusion step —
but no verification and no deduction step, since those candidates are
dropped by the premise-dependency ordering. -/
theorem claim_C1_amended :
    (Engine.verifyFormulationHypothesis 0 initializeCognitiveState
        hydrationRequest).isValid = true ∧
    mkRat 5 10 < (Engine.verifyFormulationHypothesis 0 initializeCognitiveState
        hydrationRequest).confidence ∧
    0 < ((Engine.verifyFormulationHypothesis 0 initializeCognitiveState
        hydrationRequest).proof.steps.filter (fun s => s.type = .assumption)).length ∧
    0 < ((Engine.verifyFormulationHypothesis 0 initializeCognitiveState
        hydrationRequest).proof.steps.filter (fun s => s.type = .conclusion)).length ∧
    ((Engine.verifyFormulationHypothesis 0 initializeCognitiveState
        hydrationRequest).proof.steps.filter (fun s => s.type = .verification)).length = 0 ∧
    ((Engine.verifyFormulationHypothesis 0 initializeCognitiveState
        hydrationRequest).proof.steps.filter (fun s => s.type = .deduction)).length = 0 := by
  decide

end SkinTwin
